import Mathlib

/-!
# ABCI application contract, gRPC adapter and proxy facades

A shallow embedding of `abci/types/application.go` and
`internal/proxy/app_conn.go`.

Conventions of the embedding

* A Go pointer `*T` is an `Option T` (`nil` is `none`); a Go `error` result is
  an `Option T.Error` (`nil` is `none`).
* A Go interface value whose methods may have side effects is a record of
  state-passing functions over the state of the object behind it.
* A run-time panic is an explicit `Outcome.panicked`.
-/

namespace Celestia

/-! ## Declarations the two files import -/

/-- Modelled from the spec: the generated protobuf message types of package
`types` (`RequestInfo`, `ResponseInfo`, ...), the constant `CodeTypeOK`, the
types `abciclient.ReqRes` and `abciclient.Callback`, `context.Context` and the
dynamic values of `error` are declared outside the two source files. They are
taken as parameters. A response type comes with its Go zero value (the
composite literal `ResponseX{}`); for the three responses whose `Code` field
the source sets, the remaining fields are one parameter type. -/
structure Decls where
  Context : Type
  Error : Type
  ReqRes : Type
  Callback : Type
  CodeTypeOK : Nat
  RequestInfo : Type
  RequestQuery : Type
  RequestCheckTx : Type
  RequestInitChain : Type
  RequestPrepareProposal : Type
  RequestBeginBlock : Type
  RequestDeliverTx : Type
  RequestEndBlock : Type
  RequestCommit : Type
  RequestExtendVote : Type
  RequestVerifyVoteExtension : Type
  RequestListSnapshots : Type
  RequestOfferSnapshot : Type
  RequestLoadSnapshotChunk : Type
  RequestApplySnapshotChunk : Type
  RequestProcessProposal : Type
  RequestPreprocessTxs : Type
  RequestFlush : Type
  ResponseInfo : Type
  ResponseInitChain : Type
  ResponsePrepareProposal : Type
  ResponseBeginBlock : Type
  ResponseEndBlock : Type
  ResponseCommit : Type
  ResponseExtendVote : Type
  ResponseVerifyVoteExtension : Type
  ResponseListSnapshots : Type
  ResponseOfferSnapshot : Type
  ResponseLoadSnapshotChunk : Type
  ResponseApplySnapshotChunk : Type
  ResponseProcessProposal : Type
  ResponsePreprocessTxs : Type
  ResponseFlush : Type
  QueryFields : Type
  CheckTxFields : Type
  DeliverTxFields : Type
  zeroResponseInfo : ResponseInfo
  zeroResponseInitChain : ResponseInitChain
  zeroResponsePrepareProposal : ResponsePrepareProposal
  zeroResponseBeginBlock : ResponseBeginBlock
  zeroResponseEndBlock : ResponseEndBlock
  zeroResponseCommit : ResponseCommit
  zeroResponseExtendVote : ResponseExtendVote
  zeroResponseVerifyVoteExtension : ResponseVerifyVoteExtension
  zeroResponseListSnapshots : ResponseListSnapshots
  zeroResponseOfferSnapshot : ResponseOfferSnapshot
  zeroResponseLoadSnapshotChunk : ResponseLoadSnapshotChunk
  zeroResponseApplySnapshotChunk : ResponseApplySnapshotChunk
  zeroResponseFlush : ResponseFlush
  zeroQueryFields : QueryFields
  zeroCheckTxFields : CheckTxFields
  zeroDeliverTxFields : DeliverTxFields

/-- Modelled from the spec: `ResponseQuery` is generated code; the source sets
its field `Code` (a `uint32`) and leaves every other field at its zero value. -/
structure ResponseQuery (T : Decls) where
  Code : Nat
  fields : T.QueryFields

/-- Modelled from the spec: `ResponseCheckTx` is generated code; the source sets
its field `Code` (a `uint32`) and leaves every other field at its zero value. -/
structure ResponseCheckTx (T : Decls) where
  Code : Nat
  fields : T.CheckTxFields

/-- Modelled from the spec: `ResponseDeliverTx` is generated code; the source
sets its field `Code` (a `uint32`) and leaves every other field at its zero
value. -/
structure ResponseDeliverTx (T : Decls) where
  Code : Nat
  fields : T.DeliverTxFields

/-- Modelled from the spec: `RequestEcho` is generated code; the source reads
its field `Message`. -/
structure RequestEcho where
  Message : String
deriving DecidableEq, Repr

/-- Modelled from the spec: `ResponseEcho` is generated code; the source sets
its field `Message`. -/
structure ResponseEcho where
  Message : String
deriving DecidableEq, Repr

/-- The reason of a run-time panic. -/
inductive Panic where
  /-- A nil pointer was dereferenced or a method of a nil interface called. -/
  | nilDereference
  /-- A callee outside the source panicked. -/
  | raised (msg : String)
deriving DecidableEq, Repr

/-- How a Go call ends: it returns a value or it panics. -/
inductive Outcome (α : Type) where
  | returned (a : α)
  | panicked (p : Panic)
deriving DecidableEq, Repr

/-! ## `abci/types/application.go` -/

/-- The interface `Application`: one state-passing function per method, over
the state `σ` of the object that implements it. -/
structure Application (T : Decls) (σ : Type) where
  Info : T.RequestInfo → σ → T.ResponseInfo × σ
  Query : T.RequestQuery → σ → ResponseQuery T × σ
  CheckTx : T.RequestCheckTx → σ → ResponseCheckTx T × σ
  InitChain : T.RequestInitChain → σ → T.ResponseInitChain × σ
  PrepareProposal : T.RequestPrepareProposal → σ → T.ResponsePrepareProposal × σ
  BeginBlock : T.RequestBeginBlock → σ → T.ResponseBeginBlock × σ
  DeliverTx : T.RequestDeliverTx → σ → ResponseDeliverTx T × σ
  EndBlock : T.RequestEndBlock → σ → T.ResponseEndBlock × σ
  Commit : σ → T.ResponseCommit × σ
  ExtendVote : T.RequestExtendVote → σ → T.ResponseExtendVote × σ
  VerifyVoteExtension :
    T.RequestVerifyVoteExtension → σ → T.ResponseVerifyVoteExtension × σ
  ListSnapshots : T.RequestListSnapshots → σ → T.ResponseListSnapshots × σ
  OfferSnapshot : T.RequestOfferSnapshot → σ → T.ResponseOfferSnapshot × σ
  LoadSnapshotChunk : T.RequestLoadSnapshotChunk → σ → T.ResponseLoadSnapshotChunk × σ
  ApplySnapshotChunk :
    T.RequestApplySnapshotChunk → σ → T.ResponseApplySnapshotChunk × σ

/-- The struct `BaseApplication`: it has no field. -/
structure BaseApplication where
deriving DecidableEq, Repr

def NewBaseApplication : BaseApplication :=
  {}

section BaseApplicationMethods
variable {T : Decls}

def BaseApplication.Info (_ : BaseApplication) (_req : T.RequestInfo) : T.ResponseInfo :=
  T.zeroResponseInfo

def BaseApplication.DeliverTx (_ : BaseApplication) (_req : T.RequestDeliverTx) :
    ResponseDeliverTx T :=
  { Code := T.CodeTypeOK, fields := T.zeroDeliverTxFields }

def BaseApplication.CheckTx (_ : BaseApplication) (_req : T.RequestCheckTx) :
    ResponseCheckTx T :=
  { Code := T.CodeTypeOK, fields := T.zeroCheckTxFields }

def BaseApplication.Commit (_ : BaseApplication) : T.ResponseCommit :=
  T.zeroResponseCommit

def BaseApplication.ExtendVote (_ : BaseApplication) (_req : T.RequestExtendVote) :
    T.ResponseExtendVote :=
  T.zeroResponseExtendVote

def BaseApplication.VerifyVoteExtension (_ : BaseApplication)
    (_req : T.RequestVerifyVoteExtension) : T.ResponseVerifyVoteExtension :=
  T.zeroResponseVerifyVoteExtension

def BaseApplication.Query (_ : BaseApplication) (_req : T.RequestQuery) : ResponseQuery T :=
  { Code := T.CodeTypeOK, fields := T.zeroQueryFields }

def BaseApplication.InitChain (_ : BaseApplication) (_req : T.RequestInitChain) :
    T.ResponseInitChain :=
  T.zeroResponseInitChain

def BaseApplication.BeginBlock (_ : BaseApplication) (_req : T.RequestBeginBlock) :
    T.ResponseBeginBlock :=
  T.zeroResponseBeginBlock

def BaseApplication.EndBlock (_ : BaseApplication) (_req : T.RequestEndBlock) :
    T.ResponseEndBlock :=
  T.zeroResponseEndBlock

def BaseApplication.ListSnapshots (_ : BaseApplication) (_req : T.RequestListSnapshots) :
    T.ResponseListSnapshots :=
  T.zeroResponseListSnapshots

def BaseApplication.OfferSnapshot (_ : BaseApplication) (_req : T.RequestOfferSnapshot) :
    T.ResponseOfferSnapshot :=
  T.zeroResponseOfferSnapshot

def BaseApplication.LoadSnapshotChunk (_ : BaseApplication)
    (_req : T.RequestLoadSnapshotChunk) : T.ResponseLoadSnapshotChunk :=
  T.zeroResponseLoadSnapshotChunk

def BaseApplication.ApplySnapshotChunk (_ : BaseApplication)
    (_req : T.RequestApplySnapshotChunk) : T.ResponseApplySnapshotChunk :=
  T.zeroResponseApplySnapshotChunk

def BaseApplication.PrepareProposal (_ : BaseApplication)
    (_req : T.RequestPrepareProposal) : T.ResponsePrepareProposal :=
  T.zeroResponsePrepareProposal

/-- The assertion `var _ Application = (*BaseApplication)(nil)`: the methods of
`BaseApplication` as an `Application`. They have a value receiver and so leave
the receiver as it is. -/
def BaseApplication.toApplication (T : Decls) : Application T BaseApplication where
  Info req b := (b.Info req, b)
  Query req b := (b.Query req, b)
  CheckTx req b := (b.CheckTx req, b)
  InitChain req b := (b.InitChain req, b)
  PrepareProposal req b := (b.PrepareProposal req, b)
  BeginBlock req b := (b.BeginBlock req, b)
  DeliverTx req b := (b.DeliverTx req, b)
  EndBlock req b := (b.EndBlock req, b)
  Commit b := (b.Commit, b)
  ExtendVote req b := (b.ExtendVote req, b)
  VerifyVoteExtension req b := (b.VerifyVoteExtension req, b)
  ListSnapshots req b := (b.ListSnapshots req, b)
  OfferSnapshot req b := (b.OfferSnapshot req, b)
  LoadSnapshotChunk req b := (b.LoadSnapshotChunk req, b)
  ApplySnapshotChunk req b := (b.ApplySnapshotChunk req, b)

end BaseApplicationMethods

/-- The struct `GRPCApplication`: a GRPC wrapper for `Application`. -/
structure GRPCApplication (T : Decls) (σ : Type) where
  app : Application T σ

def NewGRPCApplication {T : Decls} {σ : Type} (app : Application T σ) : GRPCApplication T σ :=
  { app := app }

section GRPCApplicationMethods
variable {T : Decls} {σ : Type}

/-- The result of an adapter method: the pair `(*Response, error)` it returns,
or a panic, together with the state of the wrapped application afterwards. -/
abbrev Served (T : Decls) (σ : Type) (ρ : Type) : Type :=
  Outcome (Option ρ × Option T.Error) × σ

def GRPCApplication.Echo (_app : GRPCApplication T σ) (_ctx : T.Context)
    (req : Option RequestEcho) (s : σ) : Served T σ ResponseEcho :=
  match req with
  | none => (.panicked .nilDereference, s)
  | some r => (.returned (some { Message := r.Message }, none), s)

def GRPCApplication.Flush (_app : GRPCApplication T σ) (_ctx : T.Context)
    (_req : Option T.RequestFlush) (s : σ) : Served T σ T.ResponseFlush :=
  (.returned (some T.zeroResponseFlush, none), s)

def GRPCApplication.Info (app : GRPCApplication T σ) (_ctx : T.Context)
    (req : Option T.RequestInfo) (s : σ) : Served T σ T.ResponseInfo :=
  match req with
  | none => (.panicked .nilDereference, s)
  | some r =>
    let res := app.app.Info r s
    (.returned (some res.1, none), res.2)

def GRPCApplication.DeliverTx (app : GRPCApplication T σ) (_ctx : T.Context)
    (req : Option T.RequestDeliverTx) (s : σ) : Served T σ (ResponseDeliverTx T) :=
  match req with
  | none => (.panicked .nilDereference, s)
  | some r =>
    let res := app.app.DeliverTx r s
    (.returned (some res.1, none), res.2)

def GRPCApplication.CheckTx (app : GRPCApplication T σ) (_ctx : T.Context)
    (req : Option T.RequestCheckTx) (s : σ) : Served T σ (ResponseCheckTx T) :=
  match req with
  | none => (.panicked .nilDereference, s)
  | some r =>
    let res := app.app.CheckTx r s
    (.returned (some res.1, none), res.2)

def GRPCApplication.Query (app : GRPCApplication T σ) (_ctx : T.Context)
    (req : Option T.RequestQuery) (s : σ) : Served T σ (ResponseQuery T) :=
  match req with
  | none => (.panicked .nilDereference, s)
  | some r =>
    let res := app.app.Query r s
    (.returned (some res.1, none), res.2)

def GRPCApplication.Commit (app : GRPCApplication T σ) (_ctx : T.Context)
    (_req : Option T.RequestCommit) (s : σ) : Served T σ T.ResponseCommit :=
  let res := app.app.Commit s
  (.returned (some res.1, none), res.2)

def GRPCApplication.InitChain (app : GRPCApplication T σ) (_ctx : T.Context)
    (req : Option T.RequestInitChain) (s : σ) : Served T σ T.ResponseInitChain :=
  match req with
  | none => (.panicked .nilDereference, s)
  | some r =>
    let res := app.app.InitChain r s
    (.returned (some res.1, none), res.2)

def GRPCApplication.BeginBlock (app : GRPCApplication T σ) (_ctx : T.Context)
    (req : Option T.RequestBeginBlock) (s : σ) : Served T σ T.ResponseBeginBlock :=
  match req with
  | none => (.panicked .nilDereference, s)
  | some r =>
    let res := app.app.BeginBlock r s
    (.returned (some res.1, none), res.2)

def GRPCApplication.EndBlock (app : GRPCApplication T σ) (_ctx : T.Context)
    (req : Option T.RequestEndBlock) (s : σ) : Served T σ T.ResponseEndBlock :=
  match req with
  | none => (.panicked .nilDereference, s)
  | some r =>
    let res := app.app.EndBlock r s
    (.returned (some res.1, none), res.2)

def GRPCApplication.ListSnapshots (app : GRPCApplication T σ) (_ctx : T.Context)
    (req : Option T.RequestListSnapshots) (s : σ) : Served T σ T.ResponseListSnapshots :=
  match req with
  | none => (.panicked .nilDereference, s)
  | some r =>
    let res := app.app.ListSnapshots r s
    (.returned (some res.1, none), res.2)

def GRPCApplication.OfferSnapshot (app : GRPCApplication T σ) (_ctx : T.Context)
    (req : Option T.RequestOfferSnapshot) (s : σ) : Served T σ T.ResponseOfferSnapshot :=
  match req with
  | none => (.panicked .nilDereference, s)
  | some r =>
    let res := app.app.OfferSnapshot r s
    (.returned (some res.1, none), res.2)

def GRPCApplication.LoadSnapshotChunk (app : GRPCApplication T σ) (_ctx : T.Context)
    (req : Option T.RequestLoadSnapshotChunk) (s : σ) :
    Served T σ T.ResponseLoadSnapshotChunk :=
  match req with
  | none => (.panicked .nilDereference, s)
  | some r =>
    let res := app.app.LoadSnapshotChunk r s
    (.returned (some res.1, none), res.2)

def GRPCApplication.ApplySnapshotChunk (app : GRPCApplication T σ) (_ctx : T.Context)
    (req : Option T.RequestApplySnapshotChunk) (s : σ) :
    Served T σ T.ResponseApplySnapshotChunk :=
  match req with
  | none => (.panicked .nilDereference, s)
  | some r =>
    let res := app.app.ApplySnapshotChunk r s
    (.returned (some res.1, none), res.2)

def GRPCApplication.ExtendVote (app : GRPCApplication T σ) (_ctx : T.Context)
    (req : Option T.RequestExtendVote) (s : σ) : Served T σ T.ResponseExtendVote :=
  match req with
  | none => (.panicked .nilDereference, s)
  | some r =>
    let res := app.app.ExtendVote r s
    (.returned (some res.1, none), res.2)

def GRPCApplication.VerifyVoteExtension (app : GRPCApplication T σ) (_ctx : T.Context)
    (req : Option T.RequestVerifyVoteExtension) (s : σ) :
    Served T σ T.ResponseVerifyVoteExtension :=
  match req with
  | none => (.panicked .nilDereference, s)
  | some r =>
    let res := app.app.VerifyVoteExtension r s
    (.returned (some res.1, none), res.2)

def GRPCApplication.PrepareProposal (app : GRPCApplication T σ) (_ctx : T.Context)
    (req : Option T.RequestPrepareProposal) (s : σ) :
    Served T σ T.ResponsePrepareProposal :=
  match req with
  | none => (.panicked .nilDereference, s)
  | some r =>
    let res := app.app.PrepareProposal r s
    (.returned (some res.1, none), res.2)

/-- The method `ProcessProposal`. It writes one line to standard output (the
list `stdout` of the lines written so far), makes no call on the wrapped
application and returns `nil, nil`. -/
def GRPCApplication.ProcessProposal (_app : GRPCApplication T σ) (_ctx : T.Context)
    (_req : Option T.RequestProcessProposal) (s : σ) (stdout : List String) :
    Served T σ T.ResponseProcessProposal × List String :=
  ((.returned (none, none), s), stdout ++ ["ProcessProposal not implemented yet.\n"])

end GRPCApplicationMethods

/-! ### Observing the calls an application receives -/

/-- One call on an `Application`: the method and its argument. -/
inductive AppCall (T : Decls) where
  | Info (req : T.RequestInfo)
  | Query (req : T.RequestQuery)
  | CheckTx (req : T.RequestCheckTx)
  | InitChain (req : T.RequestInitChain)
  | PrepareProposal (req : T.RequestPrepareProposal)
  | BeginBlock (req : T.RequestBeginBlock)
  | DeliverTx (req : T.RequestDeliverTx)
  | EndBlock (req : T.RequestEndBlock)
  | Commit
  | ExtendVote (req : T.RequestExtendVote)
  | VerifyVoteExtension (req : T.RequestVerifyVoteExtension)
  | ListSnapshots (req : T.RequestListSnapshots)
  | OfferSnapshot (req : T.RequestOfferSnapshot)
  | LoadSnapshotChunk (req : T.RequestLoadSnapshotChunk)
  | ApplySnapshotChunk (req : T.RequestApplySnapshotChunk)

/-- The response to one call on an `Application`. -/
inductive AppResp (T : Decls) where
  | Info (res : T.ResponseInfo)
  | Query (res : ResponseQuery T)
  | CheckTx (res : ResponseCheckTx T)
  | InitChain (res : T.ResponseInitChain)
  | PrepareProposal (res : T.ResponsePrepareProposal)
  | BeginBlock (res : T.ResponseBeginBlock)
  | DeliverTx (res : ResponseDeliverTx T)
  | EndBlock (res : T.ResponseEndBlock)
  | Commit (res : T.ResponseCommit)
  | ExtendVote (res : T.ResponseExtendVote)
  | VerifyVoteExtension (res : T.ResponseVerifyVoteExtension)
  | ListSnapshots (res : T.ResponseListSnapshots)
  | OfferSnapshot (res : T.ResponseOfferSnapshot)
  | LoadSnapshotChunk (res : T.ResponseLoadSnapshotChunk)
  | ApplySnapshotChunk (res : T.ResponseApplySnapshotChunk)

section Observing
variable {T : Decls} {σ : Type}

/-- Make one call on an application. -/
def Application.call (a : Application T σ) (c : AppCall T) (s : σ) : AppResp T × σ :=
  match c with
  | .Info req => ((a.Info req s).map .Info id)
  | .Query req => ((a.Query req s).map .Query id)
  | .CheckTx req => ((a.CheckTx req s).map .CheckTx id)
  | .InitChain req => ((a.InitChain req s).map .InitChain id)
  | .PrepareProposal req => ((a.PrepareProposal req s).map .PrepareProposal id)
  | .BeginBlock req => ((a.BeginBlock req s).map .BeginBlock id)
  | .DeliverTx req => ((a.DeliverTx req s).map .DeliverTx id)
  | .EndBlock req => ((a.EndBlock req s).map .EndBlock id)
  | .Commit => ((a.Commit s).map .Commit id)
  | .ExtendVote req => ((a.ExtendVote req s).map .ExtendVote id)
  | .VerifyVoteExtension req => ((a.VerifyVoteExtension req s).map .VerifyVoteExtension id)
  | .ListSnapshots req => ((a.ListSnapshots req s).map .ListSnapshots id)
  | .OfferSnapshot req => ((a.OfferSnapshot req s).map .OfferSnapshot id)
  | .LoadSnapshotChunk req => ((a.LoadSnapshotChunk req s).map .LoadSnapshotChunk id)
  | .ApplySnapshotChunk req => ((a.ApplySnapshotChunk req s).map .ApplySnapshotChunk id)

/-- Make a list of calls on an application, first to last; the state after the
last one. -/
def Application.after (a : Application T σ) (calls : List (AppCall T)) (s : σ) : σ :=
  calls.foldl (fun st c => (a.call c st).2) s

/-- The application `a` with a log: every method does what the method of `a`
does and appends the call it received to the log. -/
def Application.logged (a : Application T σ) : Application T (σ × List (AppCall T)) where
  Info req s := ((a.Info req s.1).1, (a.Info req s.1).2, s.2 ++ [.Info req])
  Query req s := ((a.Query req s.1).1, (a.Query req s.1).2, s.2 ++ [.Query req])
  CheckTx req s := ((a.CheckTx req s.1).1, (a.CheckTx req s.1).2, s.2 ++ [.CheckTx req])
  InitChain req s :=
    ((a.InitChain req s.1).1, (a.InitChain req s.1).2, s.2 ++ [.InitChain req])
  PrepareProposal req s :=
    ((a.PrepareProposal req s.1).1, (a.PrepareProposal req s.1).2,
      s.2 ++ [.PrepareProposal req])
  BeginBlock req s :=
    ((a.BeginBlock req s.1).1, (a.BeginBlock req s.1).2, s.2 ++ [.BeginBlock req])
  DeliverTx req s :=
    ((a.DeliverTx req s.1).1, (a.DeliverTx req s.1).2, s.2 ++ [.DeliverTx req])
  EndBlock req s := ((a.EndBlock req s.1).1, (a.EndBlock req s.1).2, s.2 ++ [.EndBlock req])
  Commit s := ((a.Commit s.1).1, (a.Commit s.1).2, s.2 ++ [.Commit])
  ExtendVote req s :=
    ((a.ExtendVote req s.1).1, (a.ExtendVote req s.1).2, s.2 ++ [.ExtendVote req])
  VerifyVoteExtension req s :=
    ((a.VerifyVoteExtension req s.1).1, (a.VerifyVoteExtension req s.1).2,
      s.2 ++ [.VerifyVoteExtension req])
  ListSnapshots req s :=
    ((a.ListSnapshots req s.1).1, (a.ListSnapshots req s.1).2, s.2 ++ [.ListSnapshots req])
  OfferSnapshot req s :=
    ((a.OfferSnapshot req s.1).1, (a.OfferSnapshot req s.1).2, s.2 ++ [.OfferSnapshot req])
  LoadSnapshotChunk req s :=
    ((a.LoadSnapshotChunk req s.1).1, (a.LoadSnapshotChunk req s.1).2,
      s.2 ++ [.LoadSnapshotChunk req])
  ApplySnapshotChunk req s :=
    ((a.ApplySnapshotChunk req s.1).1, (a.ApplySnapshotChunk req s.1).2,
      s.2 ++ [.ApplySnapshotChunk req])

/-- Make a list of calls on an application, first to last; the responses in
the order of the calls and the state after the last one. -/
def Application.run (a : Application T σ) : List (AppCall T) → σ → List (AppResp T) × σ
  | [], s => ([], s)
  | c :: rest, s => ((a.call c s).1 :: (a.run rest (a.call c s).2).1, (a.run rest (a.call c s).2).2)

/-- The result of an adapter method with the response under its method's name. -/
def Served.tag {ρ : Type} (f : ρ → AppResp T) (r : Served T σ ρ) : Served T σ (AppResp T) :=
  match r.1 with
  | .returned x => (.returned (x.1.map f, x.2), r.2)
  | .panicked p => (.panicked p, r.2)

/-- Make one call through the adapter, with a non-nil request pointer. -/
def GRPCApplication.serve (g : GRPCApplication T σ) (ctx : T.Context) (c : AppCall T) (s : σ) :
    Served T σ (AppResp T) :=
  match c with
  | .Info req => Served.tag .Info (g.Info ctx (some req) s)
  | .Query req => Served.tag .Query (g.Query ctx (some req) s)
  | .CheckTx req => Served.tag .CheckTx (g.CheckTx ctx (some req) s)
  | .InitChain req => Served.tag .InitChain (g.InitChain ctx (some req) s)
  | .PrepareProposal req => Served.tag .PrepareProposal (g.PrepareProposal ctx (some req) s)
  | .BeginBlock req => Served.tag .BeginBlock (g.BeginBlock ctx (some req) s)
  | .DeliverTx req => Served.tag .DeliverTx (g.DeliverTx ctx (some req) s)
  | .EndBlock req => Served.tag .EndBlock (g.EndBlock ctx (some req) s)
  | .Commit => Served.tag .Commit (g.Commit ctx none s)
  | .ExtendVote req => Served.tag .ExtendVote (g.ExtendVote ctx (some req) s)
  | .VerifyVoteExtension req =>
    Served.tag .VerifyVoteExtension (g.VerifyVoteExtension ctx (some req) s)
  | .ListSnapshots req => Served.tag .ListSnapshots (g.ListSnapshots ctx (some req) s)
  | .OfferSnapshot req => Served.tag .OfferSnapshot (g.OfferSnapshot ctx (some req) s)
  | .LoadSnapshotChunk req => Served.tag .LoadSnapshotChunk (g.LoadSnapshotChunk ctx (some req) s)
  | .ApplySnapshotChunk req =>
    Served.tag .ApplySnapshotChunk (g.ApplySnapshotChunk ctx (some req) s)

/-- Make a list of calls through the adapter, first to last; what each call
returned and the state of the application after the last one. -/
def GRPCApplication.serveAll (g : GRPCApplication T σ) (ctx : T.Context) :
    List (AppCall T) → σ → List (Outcome (Option (AppResp T) × Option T.Error)) × σ
  | [], s => ([], s)
  | c :: rest, s =>
    ((g.serve ctx c s).1 :: (g.serveAll ctx rest (g.serve ctx c s).2).1,
      (g.serveAll ctx rest (g.serve ctx c s).2).2)

/-- The calls of one block: `BeginBlock`, two `DeliverTx`, `EndBlock`, `Commit`. -/
def blockCalls (b : T.RequestBeginBlock) (t1 t2 : T.RequestDeliverTx) (e : T.RequestEndBlock) :
    List (AppCall T) :=
  [.BeginBlock b, .DeliverTx t1, .DeliverTx t2, .EndBlock e, .Commit]

/-- An adapter method `f` forwards to the application method `g`: on every
request and in every state it returns the response of `g` with a nil error and
leaves the application in the state `g` leaves it in. -/
def Forwards {ρ α : Type} (f : Option ρ → σ → Served T σ α) (g : ρ → σ → α × σ) : Prop :=
  ∀ (r : ρ) (s : σ), f (some r) s = (.returned (some (g r s).1, none), (g r s).2)

/-- An adapter method `f` over the logged application makes exactly the call
`c r` on request `r`: afterwards the log is the log before with the one entry
`c r` appended. -/
def CallsOnce {ρ α : Type}
    (f : Option ρ → σ × List (AppCall T) → Served T (σ × List (AppCall T)) α)
    (c : ρ → AppCall T) : Prop :=
  ∀ (r : ρ) (s : σ) (log : List (AppCall T)), (f (some r) (s, log)).2.2 = log ++ [c r]

end Observing

/-! ## `internal/proxy/app_conn.go` -/

/-! ### The four interfaces -/

/-- One method of an interface declaration: its name, the types of its
parameters and the types of its results. -/
structure Method where
  name : String
  params : List String
  results : List String
deriving DecidableEq, Repr

/-- The method set of the interface `AppConnConsensus`. -/
def AppConnConsensus : List Method :=
  [ ⟨"SetResponseCallback", ["abciclient.Callback"], []⟩,
    ⟨"Error", [], ["error"]⟩,
    ⟨"InitChain", ["context.Context", "types.RequestInitChain"],
      ["*types.ResponseInitChain", "error"]⟩,
    ⟨"BeginBlock", ["context.Context", "types.RequestBeginBlock"],
      ["*types.ResponseBeginBlock", "error"]⟩,
    ⟨"DeliverTxAsync", ["context.Context", "types.RequestDeliverTx"],
      ["*abciclient.ReqRes", "error"]⟩,
    ⟨"EndBlock", ["context.Context", "types.RequestEndBlock"],
      ["*types.ResponseEndBlock", "error"]⟩,
    ⟨"Commit", ["context.Context"], ["*types.ResponseCommit", "error"]⟩ ]

/-- The method set of the interface `AppConnMempool`. -/
def AppConnMempool : List Method :=
  [ ⟨"SetResponseCallback", ["abciclient.Callback"], []⟩,
    ⟨"Error", [], ["error"]⟩,
    ⟨"CheckTxAsync", ["context.Context", "types.RequestCheckTx"],
      ["*abciclient.ReqRes", "error"]⟩,
    ⟨"CheckTx", ["context.Context", "types.RequestCheckTx"],
      ["*types.ResponseCheckTx", "error"]⟩,
    ⟨"FlushAsync", ["context.Context"], ["*abciclient.ReqRes", "error"]⟩,
    ⟨"Flush", ["context.Context"], ["error"]⟩ ]

/-- The method set of the interface `AppConnQuery`. -/
def AppConnQuery : List Method :=
  [ ⟨"Error", [], ["error"]⟩,
    ⟨"Echo", ["context.Context", "string"], ["*types.ResponseEcho", "error"]⟩,
    ⟨"Info", ["context.Context", "types.RequestInfo"], ["*types.ResponseInfo", "error"]⟩,
    ⟨"Query", ["context.Context", "types.RequestQuery"], ["*types.ResponseQuery", "error"]⟩ ]

/-- The method set of the interface `AppConnSnapshot`. -/
def AppConnSnapshot : List Method :=
  [ ⟨"Error", [], ["error"]⟩,
    ⟨"ListSnapshots", ["context.Context", "types.RequestListSnapshots"],
      ["*types.ResponseListSnapshots", "error"]⟩,
    ⟨"OfferSnapshot", ["context.Context", "types.RequestOfferSnapshot"],
      ["*types.ResponseOfferSnapshot", "error"]⟩,
    ⟨"LoadSnapshotChunk", ["context.Context", "types.RequestLoadSnapshotChunk"],
      ["*types.ResponseLoadSnapshotChunk", "error"]⟩,
    ⟨"ApplySnapshotChunk", ["context.Context", "types.RequestApplySnapshotChunk"],
      ["*types.ResponseApplySnapshotChunk", "error"]⟩ ]

/-- The names in a method set. -/
def methodNames (i : List Method) : List String :=
  i.map (·.name)

/-- The state-mutating consensus operations, as the interfaces name them. -/
def consensusOnly : List String :=
  ["InitChain", "BeginBlock", "DeliverTx", "DeliverTxAsync", "EndBlock", "Commit"]

/-- The housekeeping accessors that facades share. -/
def sharedAccessors : List String :=
  ["Error", "SetResponseCallback"]

/-! ### The client, the metrics and the clock -/

/-- Modelled from the spec: the interface `abciclient.Client` is declared outside
the source. Its methods are the ones the facades call, each a state-passing
function over the state `κ` of the client (the transport and what is behind
it). -/
structure Client (T : Decls) (κ : Type) where
  SetResponseCallback : T.Callback → κ → κ
  Error : κ → Option T.Error × κ
  InitChain :
    T.Context → T.RequestInitChain → κ → (Option T.ResponseInitChain × Option T.Error) × κ
  BeginBlock :
    T.Context → T.RequestBeginBlock → κ → (Option T.ResponseBeginBlock × Option T.Error) × κ
  DeliverTxAsync :
    T.Context → T.RequestDeliverTx → κ → (Option T.ReqRes × Option T.Error) × κ
  EndBlock :
    T.Context → T.RequestEndBlock → κ → (Option T.ResponseEndBlock × Option T.Error) × κ
  Commit : T.Context → κ → (Option T.ResponseCommit × Option T.Error) × κ
  PreprocessTxsSync :
    T.Context → T.RequestPreprocessTxs → κ →
      (Option T.ResponsePreprocessTxs × Option T.Error) × κ
  FlushAsync : T.Context → κ → (Option T.ReqRes × Option T.Error) × κ
  Flush : T.Context → κ → Option T.Error × κ
  CheckTxAsync :
    T.Context → T.RequestCheckTx → κ → (Option T.ReqRes × Option T.Error) × κ
  CheckTx :
    T.Context → T.RequestCheckTx → κ → (Option (ResponseCheckTx T) × Option T.Error) × κ
  Echo : T.Context → String → κ → (Option ResponseEcho × Option T.Error) × κ
  Info : T.Context → T.RequestInfo → κ → (Option T.ResponseInfo × Option T.Error) × κ
  Query :
    T.Context → T.RequestQuery → κ → (Option (ResponseQuery T) × Option T.Error) × κ
  ListSnapshots :
    T.Context → T.RequestListSnapshots → κ →
      (Option T.ResponseListSnapshots × Option T.Error) × κ
  OfferSnapshot :
    T.Context → T.RequestOfferSnapshot → κ →
      (Option T.ResponseOfferSnapshot × Option T.Error) × κ
  LoadSnapshotChunk :
    T.Context → T.RequestLoadSnapshotChunk → κ →
      (Option T.ResponseLoadSnapshotChunk × Option T.Error) × κ
  ApplySnapshotChunk :
    T.Context → T.RequestApplySnapshotChunk → κ →
      (Option T.ResponseApplySnapshotChunk × Option T.Error) × κ

/-- The value `time.Since(start).Seconds()`, kept as the duration in nanoseconds
that the conversion to `float64` starts from. -/
structure Seconds where
  nanoseconds : Int
deriving DecidableEq, Repr

/-- Modelled from the spec: the interface `metrics.Histogram` of go-kit is
declared outside the source. This is the method table of one implementation:
`η` is the representation of its histogram values, `μ` the state of the
metrics backend. `With` returns an interface value, which may be nil; either
method may panic. -/
structure Histogram (μ η : Type) where
  With : η → List String → μ → Outcome (Option η) × μ
  Observe : η → Seconds → μ → Outcome Unit × μ

/-- Modelled from the spec: the struct `Metrics` of package `proxy` is declared
outside the source, which uses its field `MethodTiming`, an interface value of
type `metrics.Histogram`: a method table and a receiver, `none` for the nil
interface. -/
structure Metrics (μ η : Type) where
  histogram : Histogram μ η
  MethodTiming : Option η

/-- What a facade call can read and change: the state of the client, the state
of the metrics backend and the clock, given as the sequence of the readings
that successive calls of `time.Now` return (in nanoseconds) and the number of
readings taken so far. -/
structure World (κ μ : Type) where
  client : κ
  sink : μ
  clock : Nat → Int
  reads : Nat

/-! ### The timing decorator -/

section Facades
variable {T : Decls} {κ μ η : Type}

/-- The function `addTimeSample`, given the method table `H` of the histogram
`m`. It reads the clock and returns the closure, which reads the clock again
and calls `m.Observe` with the time elapsed; the call panics when `m` is the nil
interface. -/
def addTimeSample (H : Histogram μ η) (m : Option η) (w : World κ μ) :
    (World κ μ → Outcome Unit × World κ μ) × World κ μ :=
  let start := w.clock w.reads
  ( fun v =>
      let elapsed : Seconds := ⟨v.clock v.reads - start⟩
      match m with
      | none => (.panicked .nilDereference, { v with reads := v.reads + 1 })
      | some h =>
        ((H.Observe h elapsed v.sink).1,
          { v with reads := v.reads + 1, sink := (H.Observe h elapsed v.sink).2 }),
    { w with reads := w.reads + 1 } )

/-- The body that every timed facade method has:
`defer addTimeSample(metrics.MethodTiming.With(labels...))()` followed by
`return call`. The operand of `defer` is evaluated first: reading the field of a
nil `*Metrics` panics, so does calling `With` on a nil interface, and `With`
may panic itself. Then `call` runs on the client, then the deferred closure
runs; when that panics the call panics, otherwise it returns what `call`
returned. -/
def deferAddTimeSample {α : Type} (metrics : Option (Metrics μ η)) (labels : List String)
    (call : κ → α × κ) (w : World κ μ) : Outcome α × World κ μ :=
  match metrics with
  | none => (.panicked .nilDereference, w)
  | some m =>
    match m.MethodTiming with
    | none => (.panicked .nilDereference, w)
    | some h =>
      match (m.histogram.With h labels w.sink).1 with
      | .panicked p => (.panicked p, { w with sink := (m.histogram.With h labels w.sink).2 })
      | .returned labelled =>
        let sample :=
          addTimeSample m.histogram labelled
            { w with sink := (m.histogram.With h labels w.sink).2 }
        let res := call sample.2.client
        match (sample.1 { sample.2 with client := res.2 }).1 with
        | .panicked p => (.panicked p, (sample.1 { sample.2 with client := res.2 }).2)
        | .returned _ => (.returned res.1, (sample.1 { sample.2 with client := res.2 }).2)

/-! ### The consensus facade -/

/-- The struct `appConnConsensus`. -/
structure appConnConsensus (T : Decls) (κ μ η : Type) where
  metrics : Option (Metrics μ η)
  appConn : Client T κ

def NewAppConnConsensus (appConn : Client T κ) (metrics : Option (Metrics μ η)) :
    appConnConsensus T κ μ η :=
  { metrics := metrics, appConn := appConn }

def appConnConsensus.SetResponseCallback (app : appConnConsensus T κ μ η) (cb : T.Callback)
    (w : World κ μ) : World κ μ :=
  { w with client := app.appConn.SetResponseCallback cb w.client }

def appConnConsensus.Error (app : appConnConsensus T κ μ η) (w : World κ μ) :
    Option T.Error × World κ μ :=
  ((app.appConn.Error w.client).1, { w with client := (app.appConn.Error w.client).2 })

def appConnConsensus.InitChain (app : appConnConsensus T κ μ η)
    (ctx : T.Context) (req : T.RequestInitChain)
    (w : World κ μ) : Outcome (Option T.ResponseInitChain × Option T.Error) × World κ μ :=
  deferAddTimeSample app.metrics ["method", "init_chain", "type", "sync"]
    (app.appConn.InitChain ctx req) w

def appConnConsensus.BeginBlock (app : appConnConsensus T κ μ η)
    (ctx : T.Context) (req : T.RequestBeginBlock)
    (w : World κ μ) : Outcome (Option T.ResponseBeginBlock × Option T.Error) × World κ μ :=
  deferAddTimeSample app.metrics ["method", "begin_block", "type", "sync"]
    (app.appConn.BeginBlock ctx req) w

def appConnConsensus.DeliverTxAsync (app : appConnConsensus T κ μ η)
    (ctx : T.Context) (req : T.RequestDeliverTx)
    (w : World κ μ) : Outcome (Option T.ReqRes × Option T.Error) × World κ μ :=
  deferAddTimeSample app.metrics ["method", "deliver_tx", "type", "async"]
    (app.appConn.DeliverTxAsync ctx req) w

def appConnConsensus.EndBlock (app : appConnConsensus T κ μ η)
    (ctx : T.Context) (req : T.RequestEndBlock)
    (w : World κ μ) : Outcome (Option T.ResponseEndBlock × Option T.Error) × World κ μ :=
  deferAddTimeSample app.metrics ["method", "deliver_tx", "type", "sync"]
    (app.appConn.EndBlock ctx req) w

def appConnConsensus.Commit (app : appConnConsensus T κ μ η) (ctx : T.Context)
    (w : World κ μ) : Outcome (Option T.ResponseCommit × Option T.Error) × World κ μ :=
  deferAddTimeSample app.metrics ["method", "commit", "type", "sync"]
    (app.appConn.Commit ctx) w

def appConnConsensus.PreprocessTxsSync (app : appConnConsensus T κ μ η) (ctx : T.Context)
    (req : T.RequestPreprocessTxs) (w : World κ μ) :
    (Option T.ResponsePreprocessTxs × Option T.Error) × World κ μ :=
  ((app.appConn.PreprocessTxsSync ctx req w.client).1,
    { w with client := (app.appConn.PreprocessTxsSync ctx req w.client).2 })

/-! ### The mempool facade -/

/-- The struct `appConnMempool`. -/
structure appConnMempool (T : Decls) (κ μ η : Type) where
  metrics : Option (Metrics μ η)
  appConn : Client T κ

def NewAppConnMempool (appConn : Client T κ) (metrics : Option (Metrics μ η)) :
    appConnMempool T κ μ η :=
  { metrics := metrics, appConn := appConn }

def appConnMempool.SetResponseCallback (app : appConnMempool T κ μ η) (cb : T.Callback)
    (w : World κ μ) : World κ μ :=
  { w with client := app.appConn.SetResponseCallback cb w.client }

def appConnMempool.Error (app : appConnMempool T κ μ η) (w : World κ μ) :
    Option T.Error × World κ μ :=
  ((app.appConn.Error w.client).1, { w with client := (app.appConn.Error w.client).2 })

def appConnMempool.FlushAsync (app : appConnMempool T κ μ η) (ctx : T.Context)
    (w : World κ μ) : Outcome (Option T.ReqRes × Option T.Error) × World κ μ :=
  deferAddTimeSample app.metrics ["method", "flush", "type", "async"]
    (app.appConn.FlushAsync ctx) w

def appConnMempool.Flush (app : appConnMempool T κ μ η) (ctx : T.Context)
    (w : World κ μ) : Outcome (Option T.Error) × World κ μ :=
  deferAddTimeSample app.metrics ["method", "flush", "type", "sync"]
    (app.appConn.Flush ctx) w

def appConnMempool.CheckTxAsync (app : appConnMempool T κ μ η)
    (ctx : T.Context) (req : T.RequestCheckTx)
    (w : World κ μ) : Outcome (Option T.ReqRes × Option T.Error) × World κ μ :=
  deferAddTimeSample app.metrics ["method", "check_tx", "type", "async"]
    (app.appConn.CheckTxAsync ctx req) w

def appConnMempool.CheckTx (app : appConnMempool T κ μ η) (ctx : T.Context) (req : T.RequestCheckTx)
    (w : World κ μ) : Outcome (Option (ResponseCheckTx T) × Option T.Error) × World κ μ :=
  deferAddTimeSample app.metrics ["method", "check_tx", "type", "sync"]
    (app.appConn.CheckTx ctx req) w

/-! ### The query facade -/

/-- The struct `appConnQuery`. -/
structure appConnQuery (T : Decls) (κ μ η : Type) where
  metrics : Option (Metrics μ η)
  appConn : Client T κ

def NewAppConnQuery (appConn : Client T κ) (metrics : Option (Metrics μ η)) :
    appConnQuery T κ μ η :=
  { metrics := metrics, appConn := appConn }

def appConnQuery.Error (app : appConnQuery T κ μ η) (w : World κ μ) :
    Option T.Error × World κ μ :=
  ((app.appConn.Error w.client).1, { w with client := (app.appConn.Error w.client).2 })

def appConnQuery.Echo (app : appConnQuery T κ μ η) (ctx : T.Context) (msg : String)
    (w : World κ μ) : Outcome (Option ResponseEcho × Option T.Error) × World κ μ :=
  deferAddTimeSample app.metrics ["method", "echo", "type", "sync"]
    (app.appConn.Echo ctx msg) w

def appConnQuery.Info (app : appConnQuery T κ μ η) (ctx : T.Context) (req : T.RequestInfo)
    (w : World κ μ) : Outcome (Option T.ResponseInfo × Option T.Error) × World κ μ :=
  deferAddTimeSample app.metrics ["method", "info", "type", "sync"]
    (app.appConn.Info ctx req) w

def appConnQuery.Query (app : appConnQuery T κ μ η) (ctx : T.Context) (reqQuery : T.RequestQuery)
    (w : World κ μ) : Outcome (Option (ResponseQuery T) × Option T.Error) × World κ μ :=
  deferAddTimeSample app.metrics ["method", "query", "type", "sync"]
    (app.appConn.Query ctx reqQuery) w

/-! ### The snapshot facade -/

/-- The struct `appConnSnapshot`. -/
structure appConnSnapshot (T : Decls) (κ μ η : Type) where
  metrics : Option (Metrics μ η)
  appConn : Client T κ

def NewAppConnSnapshot (appConn : Client T κ) (metrics : Option (Metrics μ η)) :
    appConnSnapshot T κ μ η :=
  { metrics := metrics, appConn := appConn }

def appConnSnapshot.Error (app : appConnSnapshot T κ μ η) (w : World κ μ) :
    Option T.Error × World κ μ :=
  ((app.appConn.Error w.client).1, { w with client := (app.appConn.Error w.client).2 })

def appConnSnapshot.ListSnapshots (app : appConnSnapshot T κ μ η)
    (ctx : T.Context) (req : T.RequestListSnapshots)
    (w : World κ μ) : Outcome (Option T.ResponseListSnapshots × Option T.Error) × World κ μ :=
  deferAddTimeSample app.metrics ["method", "list_snapshots", "type", "sync"]
    (app.appConn.ListSnapshots ctx req) w

def appConnSnapshot.OfferSnapshot (app : appConnSnapshot T κ μ η)
    (ctx : T.Context) (req : T.RequestOfferSnapshot)
    (w : World κ μ) : Outcome (Option T.ResponseOfferSnapshot × Option T.Error) × World κ μ :=
  deferAddTimeSample app.metrics ["method", "offer_snapshot", "type", "sync"]
    (app.appConn.OfferSnapshot ctx req) w

def appConnSnapshot.LoadSnapshotChunk (app : appConnSnapshot T κ μ η)
    (ctx : T.Context) (req : T.RequestLoadSnapshotChunk)
    (w : World κ μ) : Outcome (Option T.ResponseLoadSnapshotChunk × Option T.Error) × World κ μ :=
  deferAddTimeSample app.metrics ["method", "load_snapshot_chunk", "type", "sync"]
    (app.appConn.LoadSnapshotChunk ctx req) w

def appConnSnapshot.ApplySnapshotChunk (app : appConnSnapshot T κ μ η)
    (ctx : T.Context) (req : T.RequestApplySnapshotChunk)
    (w : World κ μ) : Outcome (Option T.ResponseApplySnapshotChunk × Option T.Error) × World κ μ :=
  deferAddTimeSample app.metrics ["method", "apply_snapshot_chunk", "type", "sync"]
    (app.appConn.ApplySnapshotChunk ctx req) w

end Facades

/-! ### Observing the calls a client receives -/

/-- The methods of the client. -/
inductive ClientOp where
  | SetResponseCallback
  | Error
  | InitChain
  | BeginBlock
  | DeliverTxAsync
  | EndBlock
  | Commit
  | PreprocessTxsSync
  | FlushAsync
  | Flush
  | CheckTxAsync
  | CheckTx
  | Echo
  | Info
  | Query
  | ListSnapshots
  | OfferSnapshot
  | LoadSnapshotChunk
  | ApplySnapshotChunk
deriving DecidableEq, Repr

/-- The operation that a client method carries: its name without the suffix
`Async` or `Sync` that tells how the call is made. -/
def ClientOp.operation : ClientOp → String
  | .SetResponseCallback => "SetResponseCallback"
  | .Error => "Error"
  | .InitChain => "InitChain"
  | .BeginBlock => "BeginBlock"
  | .DeliverTxAsync => "DeliverTx"
  | .EndBlock => "EndBlock"
  | .Commit => "Commit"
  | .PreprocessTxsSync => "PreprocessTxs"
  | .FlushAsync => "Flush"
  | .Flush => "Flush"
  | .CheckTxAsync => "CheckTx"
  | .CheckTx => "CheckTx"
  | .Echo => "Echo"
  | .Info => "Info"
  | .Query => "Query"
  | .ListSnapshots => "ListSnapshots"
  | .OfferSnapshot => "OfferSnapshot"
  | .LoadSnapshotChunk => "LoadSnapshotChunk"
  | .ApplySnapshotChunk => "ApplySnapshotChunk"

/-- The method names of the interface `Application`, in the order of its
declaration. -/
def ApplicationMethods : List String :=
  [ "Info", "Query", "CheckTx", "InitChain", "PrepareProposal", "BeginBlock", "DeliverTx",
    "EndBlock", "Commit", "ExtendVote", "VerifyVoteExtension", "ListSnapshots",
    "OfferSnapshot", "LoadSnapshotChunk", "ApplySnapshotChunk" ]

/-- The housekeeping calls of the transport (liveness echo, flush barrier) and
the housekeeping accessors of the client. -/
def housekeeping : List String :=
  ["Echo", "Flush", "Error", "SetResponseCallback"]

section LoggedClient
variable {T : Decls} {κ : Type}

/-- The client `c` with a log: every method does what the method of `c` does
and appends its own name to the log. -/
def Client.logged (c : Client T κ) : Client T (κ × List ClientOp) where
  SetResponseCallback cb k := (c.SetResponseCallback cb k.1, k.2 ++ [.SetResponseCallback])
  Error k := ((c.Error k.1).1, (c.Error k.1).2, k.2 ++ [.Error])
  InitChain ctx req k :=
    ((c.InitChain ctx req k.1).1, (c.InitChain ctx req k.1).2, k.2 ++ [.InitChain])
  BeginBlock ctx req k :=
    ((c.BeginBlock ctx req k.1).1, (c.BeginBlock ctx req k.1).2, k.2 ++ [.BeginBlock])
  DeliverTxAsync ctx req k :=
    ((c.DeliverTxAsync ctx req k.1).1, (c.DeliverTxAsync ctx req k.1).2,
      k.2 ++ [.DeliverTxAsync])
  EndBlock ctx req k :=
    ((c.EndBlock ctx req k.1).1, (c.EndBlock ctx req k.1).2, k.2 ++ [.EndBlock])
  Commit ctx k := ((c.Commit ctx k.1).1, (c.Commit ctx k.1).2, k.2 ++ [.Commit])
  PreprocessTxsSync ctx req k :=
    ((c.PreprocessTxsSync ctx req k.1).1, (c.PreprocessTxsSync ctx req k.1).2,
      k.2 ++ [.PreprocessTxsSync])
  FlushAsync ctx k := ((c.FlushAsync ctx k.1).1, (c.FlushAsync ctx k.1).2, k.2 ++ [.FlushAsync])
  Flush ctx k := ((c.Flush ctx k.1).1, (c.Flush ctx k.1).2, k.2 ++ [.Flush])
  CheckTxAsync ctx req k :=
    ((c.CheckTxAsync ctx req k.1).1, (c.CheckTxAsync ctx req k.1).2, k.2 ++ [.CheckTxAsync])
  CheckTx ctx req k :=
    ((c.CheckTx ctx req k.1).1, (c.CheckTx ctx req k.1).2, k.2 ++ [.CheckTx])
  Echo ctx msg k := ((c.Echo ctx msg k.1).1, (c.Echo ctx msg k.1).2, k.2 ++ [.Echo])
  Info ctx req k := ((c.Info ctx req k.1).1, (c.Info ctx req k.1).2, k.2 ++ [.Info])
  Query ctx req k := ((c.Query ctx req k.1).1, (c.Query ctx req k.1).2, k.2 ++ [.Query])
  ListSnapshots ctx req k :=
    ((c.ListSnapshots ctx req k.1).1, (c.ListSnapshots ctx req k.1).2,
      k.2 ++ [.ListSnapshots])
  OfferSnapshot ctx req k :=
    ((c.OfferSnapshot ctx req k.1).1, (c.OfferSnapshot ctx req k.1).2,
      k.2 ++ [.OfferSnapshot])
  LoadSnapshotChunk ctx req k :=
    ((c.LoadSnapshotChunk ctx req k.1).1, (c.LoadSnapshotChunk ctx req k.1).2,
      k.2 ++ [.LoadSnapshotChunk])
  ApplySnapshotChunk ctx req k :=
    ((c.ApplySnapshotChunk ctx req k.1).1, (c.ApplySnapshotChunk ctx req k.1).2,
      k.2 ++ [.ApplySnapshotChunk])

end LoggedClient

/-! ### What the theorems say of a facade method -/

section Predicates
variable {T : Decls} {κ μ η : Type}

/-- The metrics record normally: the pointer is not nil, `MethodTiming` is not
the nil interface, `With` returns a histogram that is not nil, and `Observe` on
that histogram returns. -/
def RecordsNormally (metrics : Option (Metrics μ η)) : Prop :=
  ∃ m h, metrics = some m ∧ m.MethodTiming = some h ∧
    ∀ labels s, ∃ labelled, (m.histogram.With h labels s).1 = .returned (some labelled) ∧
      ∀ v s1, (m.histogram.Observe labelled v s1).1 = .returned ()

/-- The facade method `f` returns what the client method `g` returns for the
state the client is in, and leaves the client in the state that one call of `g`
leaves it in. -/
def ReturnsWhat {α : Type} (f : World κ μ → Outcome α × World κ μ) (g : κ → α × κ) : Prop :=
  ∀ w, (f w).1 = .returned (g w.client).1 ∧ (f w).2.client = (g w.client).2

/-- The facade method `f` over a logged client makes exactly the call `op` on
the client: afterwards the log is the log before with the one entry `op`
appended. -/
def CallsClientOnce {α : Type}
    (f : World (κ × List ClientOp) μ → Outcome α × World (κ × List ClientOp) μ)
    (op : ClientOp) : Prop :=
  ∀ w, (f w).2.client.2 = w.client.2 ++ [op]

/-- What the timed facade method `f`, which passes the label values `labels` to
`With` and forwards to the client method `g`, does in the world `w` for a given
metrics value. The cases follow the order of the calls and leave none out.

* A call that returns returns what `g` returns, after one call of `g`.
* With a nil `*Metrics`, or a nil `MethodTiming`, the call panics with a nil
  dereference and changes nothing: `g` is not called.
* When `With`, called with `labels` in the state the backend is in, panics, the
  call panics with that panic and `g` is not called.
* When that call of `With` returns the nil interface, the call panics with a nil
  dereference after one call of `g`.
* When it returns a histogram and `Observe` on that histogram, called with the
  time between the two clock readings in the state `With` left the backend in,
  panics, the call panics with that panic after one call of `g`.
* When that call of `Observe` returns, the call returns what `g` returns, after
  one call of `g`. -/
def TimedOutcome {α : Type} (metrics : Option (Metrics μ η)) (labels : List String)
    (f : World κ μ → Outcome α × World κ μ) (g : κ → α × κ) : Prop :=
  ∀ w,
    (∀ x, (f w).1 = .returned x → x = (g w.client).1 ∧ (f w).2.client = (g w.client).2) ∧
    (metrics = none → f w = (.panicked .nilDereference, w)) ∧
    (∀ m, metrics = some m → m.MethodTiming = none → f w = (.panicked .nilDereference, w)) ∧
    (∀ m h p, metrics = some m → m.MethodTiming = some h →
      (m.histogram.With h labels w.sink).1 = .panicked p →
      (f w).1 = .panicked p ∧ (f w).2.client = w.client) ∧
    (∀ m h, metrics = some m → m.MethodTiming = some h →
      (m.histogram.With h labels w.sink).1 = .returned none →
      (f w).1 = .panicked .nilDereference ∧ (f w).2.client = (g w.client).2) ∧
    (∀ m h labelled p, metrics = some m → m.MethodTiming = some h →
      (m.histogram.With h labels w.sink).1 = .returned (some labelled) →
      (m.histogram.Observe labelled ⟨w.clock (w.reads + 1) - w.clock w.reads⟩
        (m.histogram.With h labels w.sink).2).1 = .panicked p →
      (f w).1 = .panicked p ∧ (f w).2.client = (g w.client).2) ∧
    (∀ m h labelled, metrics = some m → m.MethodTiming = some h →
      (m.histogram.With h labels w.sink).1 = .returned (some labelled) →
      (m.histogram.Observe labelled ⟨w.clock (w.reads + 1) - w.clock w.reads⟩
        (m.histogram.With h labels w.sink).2).1 = .returned () →
      (f w).1 = .returned (g w.client).1 ∧ (f w).2.client = (g w.client).2)

end Predicates

/-! ### Concrete values to run the definitions on -/

/-- Declarations in which a context is `Unit`, an error a string and every
other type the natural numbers, with zero value `0` and `CodeTypeOK = 0`. -/
@[reducible] def natDecls : Decls where
  Context := Unit
  Error := String
  ReqRes := Nat
  Callback := Nat
  CodeTypeOK := 0
  RequestInfo := Nat
  RequestQuery := Nat
  RequestCheckTx := Nat
  RequestInitChain := Nat
  RequestPrepareProposal := Nat
  RequestBeginBlock := Nat
  RequestDeliverTx := Nat
  RequestEndBlock := Nat
  RequestCommit := Nat
  RequestExtendVote := Nat
  RequestVerifyVoteExtension := Nat
  RequestListSnapshots := Nat
  RequestOfferSnapshot := Nat
  RequestLoadSnapshotChunk := Nat
  RequestApplySnapshotChunk := Nat
  RequestProcessProposal := Nat
  RequestPreprocessTxs := Nat
  RequestFlush := Nat
  ResponseInfo := Nat
  ResponseInitChain := Nat
  ResponsePrepareProposal := Nat
  ResponseBeginBlock := Nat
  ResponseEndBlock := Nat
  ResponseCommit := Nat
  ResponseExtendVote := Nat
  ResponseVerifyVoteExtension := Nat
  ResponseListSnapshots := Nat
  ResponseOfferSnapshot := Nat
  ResponseLoadSnapshotChunk := Nat
  ResponseApplySnapshotChunk := Nat
  ResponseProcessProposal := Nat
  ResponsePreprocessTxs := Nat
  ResponseFlush := Nat
  QueryFields := Nat
  CheckTxFields := Nat
  DeliverTxFields := Nat
  zeroResponseInfo := 0
  zeroResponseInitChain := 0
  zeroResponsePrepareProposal := 0
  zeroResponseBeginBlock := 0
  zeroResponseEndBlock := 0
  zeroResponseCommit := 0
  zeroResponseExtendVote := 0
  zeroResponseVerifyVoteExtension := 0
  zeroResponseListSnapshots := 0
  zeroResponseOfferSnapshot := 0
  zeroResponseLoadSnapshotChunk := 0
  zeroResponseApplySnapshotChunk := 0
  zeroResponseFlush := 0
  zeroQueryFields := 0
  zeroCheckTxFields := 0
  zeroDeliverTxFields := 0

/-- An application over `natDecls` that counts the calls it has received and
answers each with that count added to the request; `CheckTx` rejects every
transaction with code `7`. -/
def countingApplication : Application natDecls Nat where
  Info req n := (req + n, n + 1)
  Query req n := (⟨0, req + n⟩, n + 1)
  CheckTx req n := (⟨7, req + n⟩, n + 1)
  InitChain req n := (req + n, n + 1)
  PrepareProposal req n := (req + n, n + 1)
  BeginBlock req n := (req + n, n + 1)
  DeliverTx req n := (⟨0, req + n⟩, n + 1)
  EndBlock req n := (req + n, n + 1)
  Commit n := (n, n + 1)
  ExtendVote req n := (req + n, n + 1)
  VerifyVoteExtension req n := (req + n, n + 1)
  ListSnapshots req n := (req + n, n + 1)
  OfferSnapshot req n := (req + n, n + 1)
  LoadSnapshotChunk req n := (req + n, n + 1)
  ApplySnapshotChunk req n := (req + n, n + 1)

/-- A client over `natDecls` that counts the calls it has received and answers
each with that count added to the request; `CheckTx` and `Flush` fail with an
error. -/
def countingClient : Client natDecls Nat where
  SetResponseCallback _ n := n + 1
  Error n := (some "connection reset", n + 1)
  InitChain _ req n := ((some (req + n), none), n + 1)
  BeginBlock _ req n := ((some (req + n), none), n + 1)
  DeliverTxAsync _ req n := ((some (req + n), none), n + 1)
  EndBlock _ req n := ((some (req + n), none), n + 1)
  Commit _ n := ((some n, none), n + 1)
  PreprocessTxsSync _ req n := ((some (req + n), none), n + 1)
  FlushAsync _ n := ((some n, none), n + 1)
  Flush _ n := (some "broken pipe", n + 1)
  CheckTxAsync _ req n := ((some (req + n), none), n + 1)
  CheckTx _ _ n := ((none, some "broken pipe"), n + 1)
  Echo _ msg n := ((some ⟨msg⟩, none), n + 1)
  Info _ req n := ((some (req + n), none), n + 1)
  Query _ req n := ((some ⟨0, req + n⟩, none), n + 1)
  ListSnapshots _ req n := ((some (req + n), none), n + 1)
  OfferSnapshot _ req n := ((some (req + n), none), n + 1)
  LoadSnapshotChunk _ req n := ((some (req + n), none), n + 1)
  ApplySnapshotChunk _ req n := ((some (req + n), none), n + 1)

/-- A client that does nothing: every method returns nil results. -/
def silentClient (T : Decls) : Client T Unit where
  SetResponseCallback _ k := k
  Error k := (none, k)
  Commit _ k := ((none, none), k)
  FlushAsync _ k := ((none, none), k)
  Flush _ k := (none, k)
  InitChain _ _ k := ((none, none), k)
  BeginBlock _ _ k := ((none, none), k)
  DeliverTxAsync _ _ k := ((none, none), k)
  EndBlock _ _ k := ((none, none), k)
  PreprocessTxsSync _ _ k := ((none, none), k)
  CheckTxAsync _ _ k := ((none, none), k)
  CheckTx _ _ k := ((none, none), k)
  Echo _ _ k := ((none, none), k)
  Info _ _ k := ((none, none), k)
  Query _ _ k := ((none, none), k)
  ListSnapshots _ _ k := ((none, none), k)
  OfferSnapshot _ _ k := ((none, none), k)
  LoadSnapshotChunk _ _ k := ((none, none), k)
  ApplySnapshotChunk _ _ k := ((none, none), k)

/-- A histogram that records: a histogram value is the list of the label
values given to it so far, `With` appends label values, `Observe` appends the
sample with the labels of its receiver to the backend. Neither panics. -/
def recordingHistogram : Histogram (List (List String × Seconds)) (List String) where
  With h labels s := (.returned (some (h ++ labels)), s)
  Observe h v s := (.returned (), s ++ [(h, v)])

/-- Metrics whose `MethodTiming` is the recording histogram without labels. -/
def recordingMetrics : Metrics (List (List String × Seconds)) (List String) :=
  { histogram := recordingHistogram, MethodTiming := some [] }

/-- A histogram that fails to record: a histogram value is the list of the
label values given to it so far, `With` appends label values, `Observe` panics. -/
def failingHistogram : Histogram (List (List String × Seconds)) (List String) where
  With h labels s := (.returned (some (h ++ labels)), s)
  Observe _ _ s := (.panicked (.raised "observe failed"), s)

/-- Metrics whose `MethodTiming` is the failing histogram. -/
def failingMetrics : Metrics (List (List String × Seconds)) (List String) :=
  { histogram := failingHistogram, MethodTiming := some [] }

/-- The facade method `f` over the recording histogram records exactly one
sample, under the label values `labels`: afterwards the backend holds the
samples it held before and one more, whose labels are `labels` and whose value
is the time between the two clock readings of the call. -/
def RecordsOnce {κ α : Type}
    (f : World κ (List (List String × Seconds)) →
      Outcome α × World κ (List (List String × Seconds)))
    (labels : List String) : Prop :=
  ∀ w, (f w).2.sink = w.sink ++ [(labels, ⟨w.clock (w.reads + 1) - w.clock w.reads⟩)]

/-- A world whose clock advances by 5 ns from one reading to the next. -/
def tickingWorld {κ μ : Type} (client : κ) (sink : μ) : World κ μ :=
  { client := client, sink := sink, clock := fun n => 5 * (n : Int), reads := 0 }

/-! ## The request/response pipeline -/

/-- Modelled from the spec: the request of an asynchronous submission; the
client that implements the pipeline is outside the source. The facades submit
`CheckTx`, `DeliverTx` and `Flush` asynchronously. -/
inductive AsyncRequest (T : Decls) where
  | CheckTx (req : T.RequestCheckTx)
  | DeliverTx (req : T.RequestDeliverTx)
  | Flush

/-- Modelled from the spec: the response that the transport carries back for an
asynchronous submission; the client that implements the pipeline is outside the
source. -/
inductive AsyncResponse (T : Decls) where
  | CheckTx (res : ResponseCheckTx T)
  | DeliverTx (res : ResponseDeliverTx T)
  | Flush (res : T.ResponseFlush)

/-- Modelled from the spec: the pending-call handle ("ReqRes") is declared
outside the source. It represents one submitted call and holds the request;
`id` numbers the handles of a connection in the order of their submission. -/
structure ReqRes (T : Decls) where
  id : Nat
  request : AsyncRequest T

/-- Modelled from the spec: a handle in the pending queue with its result slot,
empty until filled once; the queue is outside the source. -/
structure PendingCall (T : Decls) where
  handle : ReqRes T
  result : Option (AsyncResponse T)

/-- Modelled from the spec: a connection, the ordered queue of the pending-call
handles of one facade, is outside the source. `issued` counts the handles
given out, `pending` is the queue with the earliest submission at its head,
`completed` lists the completion callbacks fired so far, first to last, each
with the handle and the result it was fired with. -/
structure Connection (T : Decls) where
  issued : Nat
  pending : List (PendingCall T)
  completed : List (ReqRes T × AsyncResponse T)

section Pipeline
variable {T : Decls} {κ μ η : Type}

/-- A connection on which nothing was submitted yet. -/
def Connection.fresh : Connection T :=
  { issued := 0, pending := [], completed := [] }

/-- Modelled from the spec: `submit_async(request) → handle` of §4.3, which is
outside the source, enqueues the request at the tail of the pending queue and
returns the handle immediately. -/
def Connection.submit_async (req : AsyncRequest T) (c : Connection T) :
    ReqRes T × Connection T :=
  ( { id := c.issued, request := req },
    { c with
      issued := c.issued + 1
      pending := c.pending ++ [{ handle := { id := c.issued, request := req }, result := none }] } )

/-- Modelled from the spec: an arriving response fills the result slot of its
handle, which is filled once only; the code is outside the source. A response
for a handle that is not pending, or whose slot is filled, changes nothing. -/
def fillSlot (id : Nat) (res : AsyncResponse T) : List (PendingCall T) → List (PendingCall T)
  | [] => []
  | p :: rest =>
    (if p.handle.id = id ∧ p.result.isNone then { p with result := some res } else p) ::
      fillSlot id res rest

/-- Modelled from the spec: handles are released strictly head-first (§3, §4.3);
the code is outside the source. While the handle at the head of the queue has
its result, it leaves the queue and its completion callback fires; a handle
behind a head without result waits, its early arrival buffered. The callbacks
fired, first to last, and the queue that remains. -/
def releaseHead : List (PendingCall T) → List (ReqRes T × AsyncResponse T) × List (PendingCall T)
  | [] => ([], [])
  | p :: rest =>
    match p.result with
    | none => ([], p :: rest)
    | some res => ((p.handle, res) :: (releaseHead rest).1, (releaseHead rest).2)

/-- Modelled from the spec: the transport delivers the response `res` for the
handle numbered `id`, in whatever order it likes; the code is outside the
source. The slot is filled, then the queue is released from its head. -/
def Connection.deliver (id : Nat) (res : AsyncResponse T) (c : Connection T) : Connection T :=
  { c with
    pending := (releaseHead (fillSlot id res c.pending)).2
    completed := c.completed ++ (releaseHead (fillSlot id res c.pending)).1 }

/-- The declarations `T` with the pipeline's handle as `abciclient.ReqRes`. -/
@[reducible] def Decls.withPipeline (T : Decls) : Decls :=
  { T with ReqRes := Celestia.ReqRes T }

/-- Modelled from the spec: a client whose asynchronous methods submit to the
pipeline of its connection; the client is outside the source. Its other
methods are those of a client `base`. -/
def pipelineClient (base : Client T.withPipeline κ) :
    Client T.withPipeline (κ × Connection T) where
  SetResponseCallback cb k := (base.SetResponseCallback cb k.1, k.2)
  Error k := ((base.Error k.1).1, (base.Error k.1).2, k.2)
  Commit ctx k := ((base.Commit ctx k.1).1, (base.Commit ctx k.1).2, k.2)
  Flush ctx k := ((base.Flush ctx k.1).1, (base.Flush ctx k.1).2, k.2)
  DeliverTxAsync _ req k :=
    ((some (Connection.submit_async (T := T) (.DeliverTx req) k.2).1, none), k.1,
      (Connection.submit_async (T := T) (.DeliverTx req) k.2).2)
  CheckTxAsync _ req k :=
    ((some (Connection.submit_async (T := T) (.CheckTx req) k.2).1, none), k.1,
      (Connection.submit_async (T := T) (.CheckTx req) k.2).2)
  FlushAsync _ k :=
    ((some (Connection.submit_async .Flush k.2).1, none), k.1,
      (Connection.submit_async .Flush k.2).2)
  InitChain ctx req k := ((base.InitChain ctx req k.1).1, (base.InitChain ctx req k.1).2, k.2)
  BeginBlock ctx req k := ((base.BeginBlock ctx req k.1).1, (base.BeginBlock ctx req k.1).2, k.2)
  EndBlock ctx req k := ((base.EndBlock ctx req k.1).1, (base.EndBlock ctx req k.1).2, k.2)
  PreprocessTxsSync ctx req k :=
    ((base.PreprocessTxsSync ctx req k.1).1, (base.PreprocessTxsSync ctx req k.1).2, k.2)
  CheckTx ctx req k := ((base.CheckTx ctx req k.1).1, (base.CheckTx ctx req k.1).2, k.2)
  Echo ctx req k := ((base.Echo ctx req k.1).1, (base.Echo ctx req k.1).2, k.2)
  Info ctx req k := ((base.Info ctx req k.1).1, (base.Info ctx req k.1).2, k.2)
  Query ctx req k := ((base.Query ctx req k.1).1, (base.Query ctx req k.1).2, k.2)
  ListSnapshots ctx req k :=
    ((base.ListSnapshots ctx req k.1).1, (base.ListSnapshots ctx req k.1).2, k.2)
  OfferSnapshot ctx req k :=
    ((base.OfferSnapshot ctx req k.1).1, (base.OfferSnapshot ctx req k.1).2, k.2)
  LoadSnapshotChunk ctx req k :=
    ((base.LoadSnapshotChunk ctx req k.1).1, (base.LoadSnapshotChunk ctx req k.1).2, k.2)
  ApplySnapshotChunk ctx req k :=
    ((base.ApplySnapshotChunk ctx req k.1).1, (base.ApplySnapshotChunk ctx req k.1).2, k.2)

/-- What happens on a connection: the caller submits a request through the
facade, or the transport delivers the response for a handle. -/
inductive Event (ρ : Type) (T : Decls) where
  | submit (req : ρ)
  | deliver (id : Nat) (res : AsyncResponse T)

/-- Run events, first to last, on a connection whose submissions go through the
facade method `submit`; the handles the submissions returned, in the order of
submission, and the world afterwards. -/
def runEvents {ρ : Type}
    (submit : ρ → World (κ × Connection T) μ →
      Outcome (Option (ReqRes T) × Option T.Error) × World (κ × Connection T) μ) :
    List (Event ρ T) → World (κ × Connection T) μ →
      List (ReqRes T) × World (κ × Connection T) μ
  | [], w => ([], w)
  | .submit req :: rest, w =>
    match (submit req w).1 with
    | .returned (some h, _) =>
      (h :: (runEvents submit rest (submit req w).2).1, (runEvents submit rest (submit req w).2).2)
    | _ => runEvents submit rest (submit req w).2
  | .deliver id res :: rest, w =>
    runEvents submit rest { w with client := (w.client.1, w.client.2.deliver id res) }

/-- The transport delivers responses, first to last. -/
def deliverAll (ds : List (Nat × AsyncResponse T)) (w : World (κ × Connection T) μ) :
    World (κ × Connection T) μ :=
  { w with client := (w.client.1, ds.foldl (fun c d => c.deliver d.1 d.2) w.client.2) }

/-- The handles whose completion callback has fired, first to last. -/
def firedHandles (w : World (κ × Connection T) μ) : List (ReqRes T) :=
  w.client.2.completed.map Prod.fst

/-- The handles `H` given out on a connection, in the order of submission, are
accounted for in that order: the callbacks of a first part of `H` have fired,
in order, the rest of `H` is the pending queue, in order; the handles are
numbered from `0` in the order of submission, and the head of the queue has no
result yet. -/
def Connection.Ordered (H : List (ReqRes T)) (c : Connection T) : Prop :=
  c.completed.map Prod.fst ++ c.pending.map (·.handle) = H ∧
    H.map (·.id) = List.range c.issued ∧
    ∀ p rest, c.pending = p :: rest → p.result = none

/-- Every pending handle whose number is in `S` has its result. -/
def Connection.Filled (S : List Nat) (c : Connection T) : Prop :=
  ∀ p ∈ c.pending, p.handle.id ∈ S → p.result.isSome = true

/-- The facade method `submit` submits the request `mk req` to the pipeline of
the connection: it returns the handle of `submit_async` with a nil error and
leaves the connection as `submit_async` leaves it. -/
def SubmitsTo {ρ : Type}
    (submit : ρ → World (κ × Connection T) μ →
      Outcome (Option (ReqRes T) × Option T.Error) × World (κ × Connection T) μ)
    (mk : ρ → AsyncRequest T) : Prop :=
  ∀ req w,
    (submit req w).1 = .returned (some (Connection.submit_async (mk req) w.client.2).1, none) ∧
      (submit req w).2.client.2 = (Connection.submit_async (mk req) w.client.2).2

/-- The numbers of the handles whose response the transport delivers during
`events`, in the order of delivery, when `n` handles were given out before:
a delivery counts when its handle has been given out by then; a response for a
handle that is not given out yet has no handle to go to. -/
def deliveredIds {ρ : Type} : List (Event ρ T) → Nat → List Nat
  | [], _ => []
  | .submit _ :: rest, n => deliveredIds rest (n + 1)
  | .deliver id _ :: rest, n =>
    if id < n then id :: deliveredIds rest n else deliveredIds rest n

/-- The result slots of a connection are those of the deliveries `S`: a pending
handle has its result exactly when its number is in `S`, and the number of
every handle whose callback has fired is in `S`. -/
def Connection.Answered (S : List Nat) (c : Connection T) : Prop :=
  (∀ p ∈ c.pending, p.result.isSome = true ↔ p.handle.id ∈ S) ∧
    ∀ d ∈ c.completed, d.1.id ∈ S

end Pipeline

/-! ### A scenario on the mempool connection -/

/-- The mempool facade over the pipeline client, with the recording metrics. -/
def scenarioMempool :
    appConnMempool natDecls.withPipeline (Unit × Connection natDecls)
      (List (List String × Seconds)) (List String) :=
  NewAppConnMempool (pipelineClient (T := natDecls) (silentClient natDecls.withPipeline))
    (some recordingMetrics)

/-- The world at the start of the scenario: nothing submitted, nothing recorded. -/
def scenarioWorld : World (Unit × Connection natDecls) (List (List String × Seconds)) :=
  tickingWorld ((), Connection.fresh) []

/-- The transactions A and B are submitted, the transport returns the response
of B, which is rejected with code `7`; then C is submitted and the transport
returns the responses of A and of C. -/
def scenarioEvents : List (Event Nat natDecls) :=
  [.submit 10, .submit 20, .deliver 1 (.CheckTx ⟨7, 0⟩), .submit 30,
    .deliver 0 (.CheckTx ⟨0, 0⟩), .deliver 2 (.CheckTx ⟨0, 0⟩)]

/-! ## Theorems -/

section Theorems
variable {T : Decls} {σ κ μ η : Type}

/-- C1: every one of the fifteen adapter methods with a counterpart in the
application forwards to the same-named method of the application `a`: on every
request `r` it returns the response of `a` with a nil error and leaves `a` in
the state that one call leaves it in (`Commit` takes no argument and does so
whatever request pointer it is given), and over the logged application the log
grows by exactly the one entry of that call. The response is returned as it
is, whatever code it carries. -/
theorem C1_adapter_forwards_each_call_once (a : Application T σ) (ctx : T.Context) :
    (Forwards (GRPCApplication.Info (NewGRPCApplication a) ctx) a.Info ∧
    Forwards (GRPCApplication.Query (NewGRPCApplication a) ctx) a.Query ∧
    Forwards (GRPCApplication.CheckTx (NewGRPCApplication a) ctx) a.CheckTx ∧
    Forwards (GRPCApplication.InitChain (NewGRPCApplication a) ctx) a.InitChain ∧
    Forwards (GRPCApplication.PrepareProposal (NewGRPCApplication a) ctx) a.PrepareProposal ∧
    Forwards (GRPCApplication.BeginBlock (NewGRPCApplication a) ctx) a.BeginBlock ∧
    Forwards (GRPCApplication.DeliverTx (NewGRPCApplication a) ctx) a.DeliverTx ∧
    Forwards (GRPCApplication.EndBlock (NewGRPCApplication a) ctx) a.EndBlock ∧
    Forwards (GRPCApplication.ExtendVote (NewGRPCApplication a) ctx) a.ExtendVote ∧
    Forwards (GRPCApplication.VerifyVoteExtension (NewGRPCApplication a) ctx) a.VerifyVoteExtension
        ∧
    Forwards (GRPCApplication.ListSnapshots (NewGRPCApplication a) ctx) a.ListSnapshots ∧
    Forwards (GRPCApplication.OfferSnapshot (NewGRPCApplication a) ctx) a.OfferSnapshot ∧
    Forwards (GRPCApplication.LoadSnapshotChunk (NewGRPCApplication a) ctx) a.LoadSnapshotChunk ∧
    Forwards (GRPCApplication.ApplySnapshotChunk (NewGRPCApplication a) ctx) a.ApplySnapshotChunk ∧
    (∀ (req : Option T.RequestCommit) (s : σ),
      GRPCApplication.Commit (NewGRPCApplication a) ctx req s =
        (.returned (some (a.Commit s).1, none), (a.Commit s).2))) ∧
    (CallsOnce (GRPCApplication.Info (NewGRPCApplication a.logged) ctx) .Info ∧
    CallsOnce (GRPCApplication.Query (NewGRPCApplication a.logged) ctx) .Query ∧
    CallsOnce (GRPCApplication.CheckTx (NewGRPCApplication a.logged) ctx) .CheckTx ∧
    CallsOnce (GRPCApplication.InitChain (NewGRPCApplication a.logged) ctx) .InitChain ∧
    CallsOnce (GRPCApplication.PrepareProposal (NewGRPCApplication a.logged) ctx) .PrepareProposal ∧
    CallsOnce (GRPCApplication.BeginBlock (NewGRPCApplication a.logged) ctx) .BeginBlock ∧
    CallsOnce (GRPCApplication.DeliverTx (NewGRPCApplication a.logged) ctx) .DeliverTx ∧
    CallsOnce (GRPCApplication.EndBlock (NewGRPCApplication a.logged) ctx) .EndBlock ∧
    CallsOnce (GRPCApplication.ExtendVote (NewGRPCApplication a.logged) ctx) .ExtendVote ∧
    CallsOnce (GRPCApplication.VerifyVoteExtension (NewGRPCApplication a.logged) ctx)
        .VerifyVoteExtension ∧
    CallsOnce (GRPCApplication.ListSnapshots (NewGRPCApplication a.logged) ctx) .ListSnapshots ∧
    CallsOnce (GRPCApplication.OfferSnapshot (NewGRPCApplication a.logged) ctx) .OfferSnapshot ∧
    CallsOnce (GRPCApplication.LoadSnapshotChunk (NewGRPCApplication a.logged) ctx)
        .LoadSnapshotChunk ∧
    CallsOnce (GRPCApplication.ApplySnapshotChunk (NewGRPCApplication a.logged) ctx)
        .ApplySnapshotChunk ∧
    (∀ (req : Option T.RequestCommit) (s : σ) (log : List (AppCall T)),
      (GRPCApplication.Commit (NewGRPCApplication a.logged) ctx req (s, log)).2.2 =
        log ++ [.Commit])) := by
  refine ⟨⟨?_, ?_, ?_, ?_, ?_, ?_, ?_, ?_, ?_, ?_, ?_, ?_, ?_, ?_, ?_⟩,
    ⟨?_, ?_, ?_, ?_, ?_, ?_, ?_, ?_, ?_, ?_, ?_, ?_, ?_, ?_, ?_⟩⟩ <;>
    first | (intro r s log; rfl) | (intro r s; rfl)

/-- C3 (what the code does): `ProcessProposal` returns the pair `(nil, nil)` for
every request, the nil request pointer included; it writes one line to standard
output and makes no call on the application. -/
theorem C3_ProcessProposal_returns_nil_nil (a : Application T σ) (ctx : T.Context)
    (req : Option T.RequestProcessProposal) (s : σ) (stdout : List String) :
    GRPCApplication.ProcessProposal (NewGRPCApplication a) ctx req s stdout =
      ((.returned (none, none), s), stdout ++ ["ProcessProposal not implemented yet.\n"]) := by
  rfl

/-- C8: every method of `BaseApplication` answers every request with a trivial
success response: `CheckTx`, `DeliverTx` and `Query` with the code `CodeTypeOK`
and every other field at its zero value, each of the twelve other methods with
the zero value of its response type. Each output is a constant, so none depends
on the request. -/
theorem C8_BaseApplication_trivial_success (b : BaseApplication) :
    (∀ req : T.RequestCheckTx,
      (b.CheckTx req).Code = T.CodeTypeOK ∧ (b.CheckTx req).fields = T.zeroCheckTxFields) ∧
    (∀ req : T.RequestDeliverTx,
      (b.DeliverTx req).Code = T.CodeTypeOK ∧
        (b.DeliverTx req).fields = T.zeroDeliverTxFields) ∧
    (∀ req : T.RequestQuery,
      (b.Query req).Code = T.CodeTypeOK ∧ (b.Query req).fields = T.zeroQueryFields) ∧
    (∀ req : T.RequestInfo, b.Info req = T.zeroResponseInfo) ∧
    (∀ req : T.RequestInitChain, b.InitChain req = T.zeroResponseInitChain) ∧
    (∀ req : T.RequestPrepareProposal, b.PrepareProposal req = T.zeroResponsePrepareProposal) ∧
    (∀ req : T.RequestBeginBlock, b.BeginBlock req = T.zeroResponseBeginBlock) ∧
    (∀ req : T.RequestEndBlock, b.EndBlock req = T.zeroResponseEndBlock) ∧
    (∀ req : T.RequestExtendVote, b.ExtendVote req = T.zeroResponseExtendVote) ∧
    (∀ req : T.RequestVerifyVoteExtension, b.VerifyVoteExtension req =
        T.zeroResponseVerifyVoteExtension) ∧
    (∀ req : T.RequestListSnapshots, b.ListSnapshots req = T.zeroResponseListSnapshots) ∧
    (∀ req : T.RequestOfferSnapshot, b.OfferSnapshot req = T.zeroResponseOfferSnapshot) ∧
    (∀ req : T.RequestLoadSnapshotChunk, b.LoadSnapshotChunk req = T.zeroResponseLoadSnapshotChunk)
        ∧
    (∀ req : T.RequestApplySnapshotChunk, b.ApplySnapshotChunk req =
        T.zeroResponseApplySnapshotChunk) ∧
    (b.Commit = T.zeroResponseCommit) := by
  refine ⟨?_, ?_, ?_, ?_, ?_, ?_, ?_, ?_, ?_, ?_, ?_, ?_, ?_, ?_, ?_⟩ <;>
    first | rfl | (intro req; exact ⟨rfl, rfl⟩) | (intro req; rfl)

/-- C9: two independent `BaseApplication` instances, each after any history of
calls of its own, answer the sequence `BeginBlock`, `DeliverTx t1`,
`DeliverTx t2`, `EndBlock`, `Commit` with the same responses at every step, and
these are the five responses listed here: the zero `ResponseBeginBlock`, twice
the `ResponseDeliverTx` with code `CodeTypeOK`, the zero `ResponseEndBlock` and
the zero `ResponseCommit`, whatever the height and the transactions. Called
through its own `GRPCApplication` adapter, each instance returns the same five
responses, each with a nil error, and so the two `Commit` results are
identical. -/
theorem C9_BaseApplication_block_determinism (ctx : T.Context)
    (history1 history2 : List (AppCall T)) (b : T.RequestBeginBlock)
    (t1 t2 : T.RequestDeliverTx) (e : T.RequestEndBlock) :
    ((BaseApplication.toApplication T).run (blockCalls b t1 t2 e)
        ((BaseApplication.toApplication T).after history1 NewBaseApplication)).1 =
      [.BeginBlock T.zeroResponseBeginBlock,
        .DeliverTx { Code := T.CodeTypeOK, fields := T.zeroDeliverTxFields },
        .DeliverTx { Code := T.CodeTypeOK, fields := T.zeroDeliverTxFields },
        .EndBlock T.zeroResponseEndBlock,
        .Commit T.zeroResponseCommit] ∧
    ((BaseApplication.toApplication T).run (blockCalls b t1 t2 e)
        ((BaseApplication.toApplication T).after history2 NewBaseApplication)).1 =
      [.BeginBlock T.zeroResponseBeginBlock,
        .DeliverTx { Code := T.CodeTypeOK, fields := T.zeroDeliverTxFields },
        .DeliverTx { Code := T.CodeTypeOK, fields := T.zeroDeliverTxFields },
        .EndBlock T.zeroResponseEndBlock,
        .Commit T.zeroResponseCommit] ∧
    ((BaseApplication.toApplication T).run (blockCalls b t1 t2 e)
        ((BaseApplication.toApplication T).after history1 NewBaseApplication)).1 =
      ((BaseApplication.toApplication T).run (blockCalls b t1 t2 e)
        ((BaseApplication.toApplication T).after history2 NewBaseApplication)).1 ∧
    ((NewGRPCApplication (BaseApplication.toApplication T)).serveAll ctx (blockCalls b t1 t2 e)
        ((NewGRPCApplication (BaseApplication.toApplication T)).serveAll ctx history1
          NewBaseApplication).2).1 =
      [.returned (some (.BeginBlock T.zeroResponseBeginBlock), none),
        .returned (some (.DeliverTx { Code := T.CodeTypeOK, fields := T.zeroDeliverTxFields }),
          none),
        .returned (some (.DeliverTx { Code := T.CodeTypeOK, fields := T.zeroDeliverTxFields }),
          none),
        .returned (some (.EndBlock T.zeroResponseEndBlock), none),
        .returned (some (.Commit T.zeroResponseCommit), none)] ∧
    ((NewGRPCApplication (BaseApplication.toApplication T)).serveAll ctx (blockCalls b t1 t2 e)
        ((NewGRPCApplication (BaseApplication.toApplication T)).serveAll ctx history2
          NewBaseApplication).2).1 =
      [.returned (some (.BeginBlock T.zeroResponseBeginBlock), none),
        .returned (some (.DeliverTx { Code := T.CodeTypeOK, fields := T.zeroDeliverTxFields }),
          none),
        .returned (some (.DeliverTx { Code := T.CodeTypeOK, fields := T.zeroDeliverTxFields }),
          none),
        .returned (some (.EndBlock T.zeroResponseEndBlock), none),
        .returned (some (.Commit T.zeroResponseCommit), none)] ∧
    ((NewGRPCApplication (BaseApplication.toApplication T)).serveAll ctx (blockCalls b t1 t2 e)
        ((NewGRPCApplication (BaseApplication.toApplication T)).serveAll ctx history1
          NewBaseApplication).2).1 =
      ((NewGRPCApplication (BaseApplication.toApplication T)).serveAll ctx (blockCalls b t1 t2 e)
        ((NewGRPCApplication (BaseApplication.toApplication T)).serveAll ctx history2
          NewBaseApplication).2).1 :=
  ⟨rfl, rfl, rfl, rfl, rfl, rfl⟩

/-- C4: none of the state-mutating consensus operations is in the method set
of `AppConnMempool`, `AppConnQuery` or `AppConnSnapshot`, and a method name that
two of the four interfaces share is `Error` or `SetResponseCallback`. -/
theorem C4_facade_isolation :
    (∀ i ∈ [AppConnMempool, AppConnQuery, AppConnSnapshot],
      ∀ op ∈ consensusOnly, op ∉ methodNames i) ∧
    (∀ p ∈ [(AppConnConsensus, AppConnMempool), (AppConnConsensus, AppConnQuery),
        (AppConnConsensus, AppConnSnapshot), (AppConnMempool, AppConnQuery),
        (AppConnMempool, AppConnSnapshot), (AppConnQuery, AppConnSnapshot)],
      ∀ n ∈ methodNames p.1, n ∈ methodNames p.2 → n ∈ sharedAccessors) := by
  decide

/-! ### The timing decorator -/

theorem deferAddTimeSample_returns {α : Type} (metrics : Option (Metrics μ η))
    (hm : RecordsNormally metrics) (labels : List String) (call : κ → α × κ) (w : World κ μ) :
    (deferAddTimeSample metrics labels call w).1 = .returned (call w.client).1 ∧
      (deferAddTimeSample metrics labels call w).2.client = (call w.client).2 := by
  obtain ⟨m, h, rfl, hh, hw⟩ := hm
  obtain ⟨labelled, hl, ho⟩ := hw labels w.sink
  simp only [deferAddTimeSample, hh, hl, addTimeSample, ho]
  exact ⟨trivial, trivial⟩

theorem deferAddTimeSample_timedOutcome {α : Type} (metrics : Option (Metrics μ η))
    (labels : List String) (call : κ → α × κ) :
    TimedOutcome metrics labels (deferAddTimeSample metrics labels call) call := by
  intro w
  refine ⟨?_, ?_, ?_, ?_, ?_, ?_, ?_⟩
  · intro x hx
    cases metrics with
    | none => simp [deferAddTimeSample] at hx
    | some m =>
      cases hh : m.MethodTiming with
      | none => simp [deferAddTimeSample, hh] at hx
      | some h =>
        cases hl : (m.histogram.With h labels w.sink).1 with
        | panicked p => simp [deferAddTimeSample, hh, hl] at hx
        | returned labelled =>
          cases labelled with
          | none => simp [deferAddTimeSample, hh, hl, addTimeSample] at hx
          | some l =>
            simp only [deferAddTimeSample, hh, hl, addTimeSample] at hx ⊢
            split at hx
            · simp at hx
            · rename_i heq
              simp only [heq]
              simp only [Outcome.returned.injEq] at hx
              exact ⟨hx.symm, trivial⟩
  · rintro rfl
    rfl
  · rintro m rfl hh
    simp [deferAddTimeSample, hh]
  · rintro m h p rfl hh hw
    simp [deferAddTimeSample, hh, hw]
  · rintro m h rfl hh hw
    simp [deferAddTimeSample, hh, hw, addTimeSample]
  · rintro m h labelled p rfl hh hw ho
    simp [deferAddTimeSample, hh, hw, addTimeSample, ho]
  · rintro m h labelled rfl hh hw ho
    simp [deferAddTimeSample, hh, hw, addTimeSample, ho]

/-- C2: with metrics that record normally, every method of the four facades
returns exactly what the same-named method of the client returns for the same
context and request (a response or handle with its error, an error included),
and leaves the client in the state one call of that method leaves it in; the
accessor `Error` of every facade returns the client's `Error()`, and
`SetResponseCallback` hands the callback to the client. Over a logged client
every timed method appends exactly the one entry of its own call. -/
theorem C2_facade_returns_what_client_returns (metrics : Option (Metrics μ η))
    (hm : RecordsNormally metrics) (c : Client T κ) (ctx : T.Context) :
    ((∀ req : T.RequestInitChain, ReturnsWhat (appConnConsensus.InitChain (NewAppConnConsensus c
        metrics) ctx req) (c.InitChain ctx req)) ∧
    (∀ req : T.RequestBeginBlock, ReturnsWhat (appConnConsensus.BeginBlock (NewAppConnConsensus c
        metrics) ctx req) (c.BeginBlock ctx req)) ∧
    (∀ req : T.RequestDeliverTx, ReturnsWhat (appConnConsensus.DeliverTxAsync (NewAppConnConsensus c
        metrics) ctx req) (c.DeliverTxAsync ctx req)) ∧
    (∀ req : T.RequestEndBlock, ReturnsWhat (appConnConsensus.EndBlock (NewAppConnConsensus c
        metrics) ctx req) (c.EndBlock ctx req)) ∧
    (ReturnsWhat (appConnConsensus.Commit (NewAppConnConsensus c metrics) ctx) (c.Commit ctx)) ∧
    (ReturnsWhat (appConnMempool.FlushAsync (NewAppConnMempool c metrics) ctx) (c.FlushAsync ctx)) ∧
    (ReturnsWhat (appConnMempool.Flush (NewAppConnMempool c metrics) ctx) (c.Flush ctx)) ∧
    (∀ req : T.RequestCheckTx, ReturnsWhat (appConnMempool.CheckTxAsync (NewAppConnMempool c
        metrics) ctx req) (c.CheckTxAsync ctx req)) ∧
    (∀ req : T.RequestCheckTx, ReturnsWhat (appConnMempool.CheckTx (NewAppConnMempool c metrics) ctx
        req) (c.CheckTx ctx req)) ∧
    (∀ req : String, ReturnsWhat (appConnQuery.Echo (NewAppConnQuery c metrics) ctx req) (c.Echo ctx
        req)) ∧
    (∀ req : T.RequestInfo, ReturnsWhat (appConnQuery.Info (NewAppConnQuery c metrics) ctx req)
        (c.Info ctx req)) ∧
    (∀ req : T.RequestQuery, ReturnsWhat (appConnQuery.Query (NewAppConnQuery c metrics) ctx req)
        (c.Query ctx req)) ∧
    (∀ req : T.RequestListSnapshots, ReturnsWhat (appConnSnapshot.ListSnapshots (NewAppConnSnapshot
        c metrics) ctx req) (c.ListSnapshots ctx req)) ∧
    (∀ req : T.RequestOfferSnapshot, ReturnsWhat (appConnSnapshot.OfferSnapshot (NewAppConnSnapshot
        c metrics) ctx req) (c.OfferSnapshot ctx req)) ∧
    (∀ req : T.RequestLoadSnapshotChunk, ReturnsWhat (appConnSnapshot.LoadSnapshotChunk
        (NewAppConnSnapshot c metrics) ctx req) (c.LoadSnapshotChunk ctx req)) ∧
    (∀ req : T.RequestApplySnapshotChunk, ReturnsWhat (appConnSnapshot.ApplySnapshotChunk
        (NewAppConnSnapshot c metrics) ctx req) (c.ApplySnapshotChunk ctx req))) ∧
    ((∀ w : World κ μ, (appConnConsensus.Error (NewAppConnConsensus c metrics) w).1 = (c.Error
        w.client).1 ∧
      (appConnConsensus.Error (NewAppConnConsensus c metrics) w).2.client = (c.Error w.client).2) ∧
    (∀ w : World κ μ, (appConnMempool.Error (NewAppConnMempool c metrics) w).1 = (c.Error
        w.client).1 ∧
      (appConnMempool.Error (NewAppConnMempool c metrics) w).2.client = (c.Error w.client).2) ∧
    (∀ w : World κ μ, (appConnQuery.Error (NewAppConnQuery c metrics) w).1 = (c.Error w.client).1 ∧
      (appConnQuery.Error (NewAppConnQuery c metrics) w).2.client = (c.Error w.client).2) ∧
    (∀ w : World κ μ, (appConnSnapshot.Error (NewAppConnSnapshot c metrics) w).1 = (c.Error
        w.client).1 ∧
      (appConnSnapshot.Error (NewAppConnSnapshot c metrics) w).2.client = (c.Error w.client).2)) ∧
    ((∀ (cb : T.Callback) (w : World κ μ),
      (appConnConsensus.SetResponseCallback (NewAppConnConsensus c metrics) cb w).client =
        c.SetResponseCallback cb w.client) ∧
    (∀ (cb : T.Callback) (w : World κ μ),
      (appConnMempool.SetResponseCallback (NewAppConnMempool c metrics) cb w).client =
        c.SetResponseCallback cb w.client)) ∧
    (∀ (req : T.RequestPreprocessTxs) (w : World κ μ),
      (appConnConsensus.PreprocessTxsSync (NewAppConnConsensus c metrics) ctx req w).1 =
          (c.PreprocessTxsSync ctx req w.client).1 ∧
        (appConnConsensus.PreprocessTxsSync (NewAppConnConsensus c metrics) ctx req w).2.client =
          (c.PreprocessTxsSync ctx req w.client).2) ∧
    ((∀ req : T.RequestInitChain, CallsClientOnce (appConnConsensus.InitChain (NewAppConnConsensus
        c.logged metrics) ctx req) .InitChain) ∧
    (∀ req : T.RequestBeginBlock, CallsClientOnce (appConnConsensus.BeginBlock (NewAppConnConsensus
        c.logged metrics) ctx req) .BeginBlock) ∧
    (∀ req : T.RequestDeliverTx, CallsClientOnce (appConnConsensus.DeliverTxAsync
        (NewAppConnConsensus c.logged metrics) ctx req) .DeliverTxAsync) ∧
    (∀ req : T.RequestEndBlock, CallsClientOnce (appConnConsensus.EndBlock (NewAppConnConsensus
        c.logged metrics) ctx req) .EndBlock) ∧
    (CallsClientOnce (appConnConsensus.Commit (NewAppConnConsensus c.logged metrics) ctx) .Commit) ∧
    (CallsClientOnce (appConnMempool.FlushAsync (NewAppConnMempool c.logged metrics) ctx)
        .FlushAsync) ∧
    (CallsClientOnce (appConnMempool.Flush (NewAppConnMempool c.logged metrics) ctx) .Flush) ∧
    (∀ req : T.RequestCheckTx, CallsClientOnce (appConnMempool.CheckTxAsync (NewAppConnMempool
        c.logged metrics) ctx req) .CheckTxAsync) ∧
    (∀ req : T.RequestCheckTx, CallsClientOnce (appConnMempool.CheckTx (NewAppConnMempool c.logged
        metrics) ctx req) .CheckTx) ∧
    (∀ req : String, CallsClientOnce (appConnQuery.Echo (NewAppConnQuery c.logged metrics) ctx req)
        .Echo) ∧
    (∀ req : T.RequestInfo, CallsClientOnce (appConnQuery.Info (NewAppConnQuery c.logged metrics)
        ctx req) .Info) ∧
    (∀ req : T.RequestQuery, CallsClientOnce (appConnQuery.Query (NewAppConnQuery c.logged metrics)
        ctx req) .Query) ∧
    (∀ req : T.RequestListSnapshots, CallsClientOnce (appConnSnapshot.ListSnapshots
        (NewAppConnSnapshot c.logged metrics) ctx req) .ListSnapshots) ∧
    (∀ req : T.RequestOfferSnapshot, CallsClientOnce (appConnSnapshot.OfferSnapshot
        (NewAppConnSnapshot c.logged metrics) ctx req) .OfferSnapshot) ∧
    (∀ req : T.RequestLoadSnapshotChunk, CallsClientOnce (appConnSnapshot.LoadSnapshotChunk
        (NewAppConnSnapshot c.logged metrics) ctx req) .LoadSnapshotChunk) ∧
    (∀ req : T.RequestApplySnapshotChunk, CallsClientOnce (appConnSnapshot.ApplySnapshotChunk
        (NewAppConnSnapshot c.logged metrics) ctx req) .ApplySnapshotChunk)) := by
  refine ⟨⟨?_, ?_, ?_, ?_, ?_, ?_, ?_, ?_, ?_, ?_, ?_, ?_, ?_, ?_, ?_, ?_⟩, ⟨?_, ?_, ?_, ?_⟩, ⟨?_,
      ?_⟩, ?_,
    ⟨?_, ?_, ?_, ?_, ?_, ?_, ?_, ?_, ?_, ?_, ?_, ?_, ?_, ?_, ?_, ?_⟩⟩
  all_goals
    first
    | (intro req w; exact deferAddTimeSample_returns metrics hm _ _ w)
    | (intro w; exact deferAddTimeSample_returns metrics hm _ _ w)
    | (intro req w;
       exact (congrArg Prod.snd (deferAddTimeSample_returns metrics hm _ _ w).2).trans rfl)
    | (intro w;
       exact (congrArg Prod.snd (deferAddTimeSample_returns metrics hm _ _ w).2).trans rfl)
    | (intro w; exact ⟨rfl, rfl⟩)
    | (intro cb w; rfl)
    | (intro req w; exact ⟨rfl, rfl⟩)

/-- C7 (amended): whatever metrics value a facade was constructed with, a timed
facade call that returns has called the client's method once and returns
exactly what it returned; a failure to record makes the call panic: before the
client's method is called when the `*Metrics` is nil, `MethodTiming` is nil or
`With`, called with the label values the method passes, panics; and after the
client's method was called once when that call of `With` returns a nil
histogram or the call of `Observe` on the histogram it returns panics. When
both calls return, the call returns what the client returned. -/
theorem C7_timed_call_outcome_for_any_metrics (metrics : Option (Metrics μ η))
    (c : Client T κ) (ctx : T.Context) :
    (∀ req : T.RequestInitChain,
      TimedOutcome metrics ["method", "init_chain", "type", "sync"]
        (appConnConsensus.InitChain (NewAppConnConsensus c metrics) ctx req)
        (c.InitChain ctx req)) ∧
    (∀ req : T.RequestBeginBlock,
      TimedOutcome metrics ["method", "begin_block", "type", "sync"]
        (appConnConsensus.BeginBlock (NewAppConnConsensus c metrics) ctx req)
        (c.BeginBlock ctx req)) ∧
    (∀ req : T.RequestDeliverTx,
      TimedOutcome metrics ["method", "deliver_tx", "type", "async"]
        (appConnConsensus.DeliverTxAsync (NewAppConnConsensus c metrics) ctx req)
        (c.DeliverTxAsync ctx req)) ∧
    (∀ req : T.RequestEndBlock,
      TimedOutcome metrics ["method", "deliver_tx", "type", "sync"]
        (appConnConsensus.EndBlock (NewAppConnConsensus c metrics) ctx req)
        (c.EndBlock ctx req)) ∧
    (TimedOutcome metrics ["method", "commit", "type", "sync"]
        (appConnConsensus.Commit (NewAppConnConsensus c metrics) ctx)
        (c.Commit ctx)) ∧
    (TimedOutcome metrics ["method", "flush", "type", "async"]
        (appConnMempool.FlushAsync (NewAppConnMempool c metrics) ctx)
        (c.FlushAsync ctx)) ∧
    (TimedOutcome metrics ["method", "flush", "type", "sync"]
        (appConnMempool.Flush (NewAppConnMempool c metrics) ctx)
        (c.Flush ctx)) ∧
    (∀ req : T.RequestCheckTx,
      TimedOutcome metrics ["method", "check_tx", "type", "async"]
        (appConnMempool.CheckTxAsync (NewAppConnMempool c metrics) ctx req)
        (c.CheckTxAsync ctx req)) ∧
    (∀ req : T.RequestCheckTx,
      TimedOutcome metrics ["method", "check_tx", "type", "sync"]
        (appConnMempool.CheckTx (NewAppConnMempool c metrics) ctx req)
        (c.CheckTx ctx req)) ∧
    (∀ req : String,
      TimedOutcome metrics ["method", "echo", "type", "sync"]
        (appConnQuery.Echo (NewAppConnQuery c metrics) ctx req)
        (c.Echo ctx req)) ∧
    (∀ req : T.RequestInfo,
      TimedOutcome metrics ["method", "info", "type", "sync"]
        (appConnQuery.Info (NewAppConnQuery c metrics) ctx req)
        (c.Info ctx req)) ∧
    (∀ req : T.RequestQuery,
      TimedOutcome metrics ["method", "query", "type", "sync"]
        (appConnQuery.Query (NewAppConnQuery c metrics) ctx req)
        (c.Query ctx req)) ∧
    (∀ req : T.RequestListSnapshots,
      TimedOutcome metrics ["method", "list_snapshots", "type", "sync"]
        (appConnSnapshot.ListSnapshots (NewAppConnSnapshot c metrics) ctx req)
        (c.ListSnapshots ctx req)) ∧
    (∀ req : T.RequestOfferSnapshot,
      TimedOutcome metrics ["method", "offer_snapshot", "type", "sync"]
        (appConnSnapshot.OfferSnapshot (NewAppConnSnapshot c metrics) ctx req)
        (c.OfferSnapshot ctx req)) ∧
    (∀ req : T.RequestLoadSnapshotChunk,
      TimedOutcome metrics ["method", "load_snapshot_chunk", "type", "sync"]
        (appConnSnapshot.LoadSnapshotChunk (NewAppConnSnapshot c metrics) ctx req)
        (c.LoadSnapshotChunk ctx req)) ∧
    (∀ req : T.RequestApplySnapshotChunk,
      TimedOutcome metrics ["method", "apply_snapshot_chunk", "type", "sync"]
        (appConnSnapshot.ApplySnapshotChunk (NewAppConnSnapshot c metrics) ctx req)
        (c.ApplySnapshotChunk ctx req)) := by
  refine ⟨?_, ?_, ?_, ?_, ?_, ?_, ?_, ?_, ?_, ?_, ?_, ?_, ?_, ?_, ?_, ?_⟩
  all_goals
    first
    | (intro req; exact deferAddTimeSample_timedOutcome metrics _ _)
    | exact deferAddTimeSample_timedOutcome metrics _ _

/-- C5 (what the code does): over the recording histogram every timed facade
method records exactly one sample per call, under the label values listed
here. `EndBlock` records under the method name `deliver_tx`, the name that
`DeliverTxAsync` records under, and not under `end_block`. -/
theorem C5_timing_labels_of_each_method (c : Client T κ) (ctx : T.Context) :
    (∀ req : T.RequestInitChain, RecordsOnce (appConnConsensus.InitChain (NewAppConnConsensus c
        (some recordingMetrics)) ctx req) ["method", "init_chain", "type", "sync"]) ∧
    (∀ req : T.RequestBeginBlock, RecordsOnce (appConnConsensus.BeginBlock (NewAppConnConsensus c
        (some recordingMetrics)) ctx req) ["method", "begin_block", "type", "sync"]) ∧
    (∀ req : T.RequestDeliverTx, RecordsOnce (appConnConsensus.DeliverTxAsync (NewAppConnConsensus c
        (some recordingMetrics)) ctx req) ["method", "deliver_tx", "type", "async"]) ∧
    (∀ req : T.RequestEndBlock, RecordsOnce (appConnConsensus.EndBlock (NewAppConnConsensus c (some
        recordingMetrics)) ctx req) ["method", "deliver_tx", "type", "sync"]) ∧
    (RecordsOnce (appConnConsensus.Commit (NewAppConnConsensus c (some recordingMetrics)) ctx)
        ["method", "commit", "type", "sync"]) ∧
    (RecordsOnce (appConnMempool.FlushAsync (NewAppConnMempool c (some recordingMetrics)) ctx)
        ["method", "flush", "type", "async"]) ∧
    (RecordsOnce (appConnMempool.Flush (NewAppConnMempool c (some recordingMetrics)) ctx) ["method",
        "flush", "type", "sync"]) ∧
    (∀ req : T.RequestCheckTx, RecordsOnce (appConnMempool.CheckTxAsync (NewAppConnMempool c (some
        recordingMetrics)) ctx req) ["method", "check_tx", "type", "async"]) ∧
    (∀ req : T.RequestCheckTx, RecordsOnce (appConnMempool.CheckTx (NewAppConnMempool c (some
        recordingMetrics)) ctx req) ["method", "check_tx", "type", "sync"]) ∧
    (∀ req : String, RecordsOnce (appConnQuery.Echo (NewAppConnQuery c (some recordingMetrics)) ctx
        req) ["method", "echo", "type", "sync"]) ∧
    (∀ req : T.RequestInfo, RecordsOnce (appConnQuery.Info (NewAppConnQuery c (some
        recordingMetrics)) ctx req) ["method", "info", "type", "sync"]) ∧
    (∀ req : T.RequestQuery, RecordsOnce (appConnQuery.Query (NewAppConnQuery c (some
        recordingMetrics)) ctx req) ["method", "query", "type", "sync"]) ∧
    (∀ req : T.RequestListSnapshots, RecordsOnce (appConnSnapshot.ListSnapshots (NewAppConnSnapshot
        c (some recordingMetrics)) ctx req) ["method", "list_snapshots", "type", "sync"]) ∧
    (∀ req : T.RequestOfferSnapshot, RecordsOnce (appConnSnapshot.OfferSnapshot (NewAppConnSnapshot
        c (some recordingMetrics)) ctx req) ["method", "offer_snapshot", "type", "sync"]) ∧
    (∀ req : T.RequestLoadSnapshotChunk, RecordsOnce (appConnSnapshot.LoadSnapshotChunk
        (NewAppConnSnapshot c (some recordingMetrics)) ctx req) ["method", "load_snapshot_chunk",
        "type", "sync"]) ∧
    (∀ req : T.RequestApplySnapshotChunk, RecordsOnce (appConnSnapshot.ApplySnapshotChunk
        (NewAppConnSnapshot c (some recordingMetrics)) ctx req) ["method", "apply_snapshot_chunk",
        "type", "sync"]) := by
  refine ⟨?_, ?_, ?_, ?_, ?_, ?_, ?_, ?_, ?_, ?_, ?_, ?_, ?_, ?_, ?_, ?_⟩
  all_goals
    first
    | (intro req w; rfl)
    | (intro w; rfl)

/-- C6 (what the code does): `appConnConsensus.PreprocessTxsSync` forwards to the
client: over a logged client it appends the one entry `PreprocessTxsSync`. The
operation it carries, `PreprocessTxs`, is no method of `Application` and no
housekeeping call, and the method is not in the interface `AppConnConsensus`. -/
theorem C6_PreprocessTxsSync_is_forwarded (metrics : Option (Metrics μ η)) (c : Client T κ)
    (ctx : T.Context) (req : T.RequestPreprocessTxs) (w : World (κ × List ClientOp) μ) :
    (appConnConsensus.PreprocessTxsSync (NewAppConnConsensus c.logged metrics) ctx req
        w).2.client.2 = w.client.2 ++ [.PreprocessTxsSync] ∧
      ClientOp.PreprocessTxsSync.operation ∉ ApplicationMethods ++ housekeeping ∧
      "PreprocessTxsSync" ∉ methodNames AppConnConsensus := by
  refine ⟨rfl, ?_, ?_⟩ <;> decide

/-- C7 (counterexample): a consensus facade built with a nil `*Metrics` over the
counting client panics on `InitChain`: it does not return what the client
returns, `(3, nil)`, and the client, still in state `0`, was not called. -/
theorem C7_nil_metrics_panics :
    (appConnConsensus.InitChain
        (NewAppConnConsensus countingClient
          (none : Option (Metrics (List (List String × Seconds)) (List String))))
        () 3 (tickingWorld 0 [])).1 = .panicked .nilDereference ∧
      (appConnConsensus.InitChain
        (NewAppConnConsensus countingClient
          (none : Option (Metrics (List (List String × Seconds)) (List String))))
        () 3 (tickingWorld 0 [])).1 ≠
        .returned (countingClient.InitChain () 3 (0 : Nat)).1 ∧
      (appConnConsensus.InitChain
        (NewAppConnConsensus countingClient
          (none : Option (Metrics (List (List String × Seconds)) (List String))))
        () 3 (tickingWorld 0 [])).2.client = 0 ∧
      countingClient.InitChain () 3 (0 : Nat) = ((some 3, none), 1) := by
  refine ⟨rfl, ?_, rfl, rfl⟩
  intro h
  cases h

theorem recordingMetrics_recordsNormally : RecordsNormally (some recordingMetrics) :=
  ⟨recordingMetrics, [], rfl, rfl, fun labels _ => ⟨[] ++ labels, rfl, fun _ _ => rfl⟩⟩

/-- C2 (witness): the recording metrics record normally, and over them the
mempool facade's `CheckTx` returns the error of the counting client and the
consensus facade's `InitChain` its response. -/
theorem C2_facade_returns_what_client_returns_witness :
    RecordsNormally (some recordingMetrics) ∧
      (appConnMempool.CheckTx (NewAppConnMempool countingClient (some recordingMetrics)) () 3
        (tickingWorld 0 [])).1 = .returned (none, some "broken pipe") ∧
      (appConnConsensus.InitChain (NewAppConnConsensus countingClient (some recordingMetrics))
        () 3 (tickingWorld 4 [])).1 = .returned (some 7, none) :=
  ⟨recordingMetrics_recordsNormally,
    ((C2_facade_returns_what_client_returns (some recordingMetrics)
      recordingMetrics_recordsNormally countingClient ()).1.2.2.2.2.2.2.2.2.1 3
        (tickingWorld 0 [])).1,
    ((C2_facade_returns_what_client_returns (some recordingMetrics)
      recordingMetrics_recordsNormally countingClient ()).1.1 3 (tickingWorld 4 [])).1⟩

/-! ### The pipeline -/

theorem fillSlot_handles (id : Nat) (res : AsyncResponse T) (q : List (PendingCall T)) :
    (fillSlot id res q).map (·.handle) = q.map (·.handle) := by
  induction q with
  | nil => rfl
  | cons p rest ih =>
    simp only [fillSlot, List.map_cons, ih]
    split <;> rfl

theorem fillSlot_filled (id : Nat) (res : AsyncResponse T) (S : List Nat)
    (q : List (PendingCall T)) (h : ∀ p ∈ q, p.handle.id ∈ S → p.result.isSome = true) :
    ∀ p ∈ fillSlot id res q, p.handle.id ∈ S ++ [id] → p.result.isSome = true := by
  induction q with
  | nil => intro p hp; simp [fillSlot] at hp
  | cons a rest ih =>
    intro p hp hid
    simp only [fillSlot, List.mem_cons] at hp
    rcases hp with rfl | hp
    · by_cases hc : a.handle.id = id ∧ a.result.isNone = true
      · simp only [if_pos hc, Option.isSome_some]
      · simp only [if_neg hc] at hid ⊢
        simp only [List.mem_append, List.mem_singleton] at hid
        rcases hid with hS | hEq
        · exact h a (List.mem_cons_self _ _) hS
        · cases hr : a.result with
          | none => exact absurd ⟨hEq, by simp [hr]⟩ hc
          | some r => rfl
    · exact ih (fun p hp => h p (List.mem_cons_of_mem _ hp)) p hp hid

theorem releaseHead_handles (q : List (PendingCall T)) :
    (releaseHead q).1.map Prod.fst ++ (releaseHead q).2.map (·.handle) = q.map (·.handle) := by
  induction q with
  | nil => rfl
  | cons p rest ih =>
    cases hr : p.result with
    | none => simp [releaseHead, hr]
    | some r => simpa [releaseHead, hr] using ih

theorem releaseHead_mem (q : List (PendingCall T)) :
    ∀ p ∈ (releaseHead q).2, p ∈ q := by
  induction q with
  | nil => intro p hp; simp [releaseHead] at hp
  | cons a rest ih =>
    intro p hp
    cases hr : a.result with
    | none => simpa [releaseHead, hr] using hp
    | some r =>
      simp only [releaseHead, hr] at hp
      exact List.mem_cons_of_mem _ (ih p hp)

theorem releaseHead_head (q : List (PendingCall T)) :
    ∀ p rest, (releaseHead q).2 = p :: rest → p.result = none := by
  induction q with
  | nil => intro p rest h; simp [releaseHead] at h
  | cons a tail ih =>
    intro p rest h
    cases hr : a.result with
    | none =>
      simp only [releaseHead, hr, List.cons.injEq] at h
      rw [← h.1]; exact hr
    | some r =>
      simp only [releaseHead, hr] at h
      exact ih p rest h

theorem Connection.deliver_ordered (H : List (ReqRes T)) (id : Nat) (res : AsyncResponse T)
    (c : Connection T) (h : c.Ordered H) : (c.deliver id res).Ordered H := by
  obtain ⟨h1, h2, _⟩ := h
  refine ⟨?_, h2, releaseHead_head _⟩
  simp only [Connection.deliver, List.map_append, List.append_assoc]
  rw [releaseHead_handles, fillSlot_handles]
  exact h1

theorem Connection.deliver_filled (S : List Nat) (id : Nat) (res : AsyncResponse T)
    (c : Connection T) (h : c.Filled S) : (c.deliver id res).Filled (S ++ [id]) := by
  intro p hp
  exact fillSlot_filled id res S c.pending h p (releaseHead_mem _ p hp)

theorem Connection.submit_async_ordered (H : List (ReqRes T)) (req : AsyncRequest T)
    (c : Connection T) (h : c.Ordered H) :
    (c.submit_async req).2.Ordered (H ++ [(c.submit_async req).1]) := by
  obtain ⟨h1, h2, h3⟩ := h
  refine ⟨?_, ?_, ?_⟩
  · simp only [Connection.submit_async, List.map_append, List.map_cons, List.map_nil]
    rw [← List.append_assoc, h1]
  · simp only [Connection.submit_async, List.map_append, List.map_cons, List.map_nil, h2,
      List.range_succ]
  · intro p rest hp
    simp only [Connection.submit_async] at hp
    cases hq : c.pending with
    | nil =>
      rw [hq] at hp
      simp only [List.nil_append, List.cons.injEq] at hp
      rw [← hp.1]
    | cons a tail =>
      rw [hq] at hp
      simp only [List.cons_append, List.cons.injEq] at hp
      rw [← hp.1]
      exact h3 a tail hq

theorem runEvents_ordered {ρ : Type}
    (submit : ρ → World (κ × Connection T) μ →
      Outcome (Option (ReqRes T) × Option T.Error) × World (κ × Connection T) μ)
    (mk : ρ → AsyncRequest T) (hs : SubmitsTo submit mk) (events : List (Event ρ T)) :
    ∀ (H : List (ReqRes T)) (w : World (κ × Connection T) μ), w.client.2.Ordered H →
      (runEvents submit events w).2.client.2.Ordered (H ++ (runEvents submit events w).1) := by
  induction events with
  | nil => intro H w h; simpa [runEvents] using h
  | cons e rest ih =>
    intro H w h
    cases e with
    | submit req =>
      obtain ⟨hr, hc⟩ := hs req w
      have hnext := ih (H ++ [(Connection.submit_async (mk req) w.client.2).1]) (submit req w).2
        (by rw [hc]; exact Connection.submit_async_ordered H (mk req) w.client.2 h)
      simp only [runEvents, hr]
      simpa [List.append_assoc] using hnext
    | deliver id res =>
      simp only [runEvents]
      exact ih H _ (Connection.deliver_ordered H id res w.client.2 h)

theorem deliverAll_ordered_filled (H : List (ReqRes T)) (ds : List (Nat × AsyncResponse T)) :
    ∀ (S : List Nat) (c : Connection T), c.Ordered H → c.Filled S →
      (ds.foldl (fun c d => c.deliver d.1 d.2) c).Ordered H ∧
        (ds.foldl (fun c d => c.deliver d.1 d.2) c).Filled (S ++ ds.map Prod.fst) := by
  induction ds with
  | nil => intro S c ho hf; simpa using ⟨ho, hf⟩
  | cons d rest ih =>
    intro S c ho hf
    have h := ih (S ++ [d.1]) (c.deliver d.1 d.2) (Connection.deliver_ordered H d.1 d.2 c ho)
      (Connection.deliver_filled S d.1 d.2 c hf)
    simpa [List.append_assoc] using h

theorem Connection.ordered_prefix (H : List (ReqRes T)) (c : Connection T) (h : c.Ordered H) :
    c.completed.map Prod.fst <+: H :=
  ⟨_, h.1⟩

theorem Connection.ordered_nodup (H : List (ReqRes T)) (c : Connection T) (h : c.Ordered H) :
    H.Nodup := by
  have : (H.map (·.id)).Nodup := by rw [h.2.1]; exact List.nodup_range _
  exact List.Nodup.of_map _ this

theorem Connection.ordered_complete (H : List (ReqRes T)) (S : List Nat) (c : Connection T)
    (ho : c.Ordered H) (hf : c.Filled S) (hall : ∀ h ∈ H, h.id ∈ S) :
    c.completed.map Prod.fst = H := by
  obtain ⟨h1, _, h3⟩ := ho
  cases hq : c.pending with
  | nil => simpa [hq] using h1
  | cons p rest =>
    exfalso
    have hmem : p.handle ∈ H := by
      rw [← h1, hq]; simp
    have hsome := hf p (by rw [hq]; exact List.mem_cons_self _ _) (hall _ hmem)
    rw [h3 p rest hq] at hsome
    simp at hsome

theorem Connection.fresh_ordered : (Connection.fresh : Connection T).Ordered [] :=
  ⟨rfl, rfl, fun _ _ h => by simp [Connection.fresh] at h⟩

theorem fillSlot_answered (id : Nat) (res : AsyncResponse T) (S : List Nat)
    (q : List (PendingCall T)) (h : ∀ p ∈ q, p.result.isSome = true ↔ p.handle.id ∈ S) :
    ∀ p ∈ fillSlot id res q, p.result.isSome = true ↔ p.handle.id ∈ S ++ [id] := by
  induction q with
  | nil => intro p hp; simp [fillSlot] at hp
  | cons a rest ih =>
    intro p hp
    simp only [fillSlot, List.mem_cons] at hp
    rcases hp with rfl | hp
    · by_cases hc : a.handle.id = id ∧ a.result.isNone = true
      · rw [if_pos hc]
        simp only [Option.isSome_some, List.mem_append, List.mem_singleton, hc.1, or_true]
      · simp only [if_neg hc, List.mem_append, List.mem_singleton]
        constructor
        · intro hs
          exact Or.inl ((h a (List.mem_cons_self _ _)).1 hs)
        · rintro (hS | hEq)
          · exact (h a (List.mem_cons_self _ _)).2 hS
          · cases hr : a.result with
            | none => exact absurd ⟨hEq, by simp [hr]⟩ hc
            | some r => rfl
    · exact ih (fun p hp => h p (List.mem_cons_of_mem _ hp)) p hp

theorem fillSlot_eq_self (id : Nat) (res : AsyncResponse T) (q : List (PendingCall T))
    (h : ∀ p ∈ q, p.handle.id ≠ id) : fillSlot id res q = q := by
  induction q with
  | nil => rfl
  | cons a rest ih =>
    have ha : ¬(a.handle.id = id ∧ a.result.isNone = true) :=
      fun hc => h a (List.mem_cons_self _ _) hc.1
    simp only [fillSlot, if_neg ha, ih (fun p hp => h p (List.mem_cons_of_mem _ hp))]

theorem releaseHead_released (q : List (PendingCall T)) :
    ∀ d ∈ (releaseHead q).1, ∃ p ∈ q, p.handle = d.1 ∧ p.result.isSome = true := by
  induction q with
  | nil => intro d hd; simp [releaseHead] at hd
  | cons a rest ih =>
    intro d hd
    cases hr : a.result with
    | none => simp [releaseHead, hr] at hd
    | some r =>
      simp only [releaseHead, hr, List.mem_cons] at hd
      rcases hd with rfl | hd
      · exact ⟨a, List.mem_cons_self _ _, rfl, by simp [hr]⟩
      · obtain ⟨p, hp, hpe⟩ := ih d hd
        exact ⟨p, List.mem_cons_of_mem _ hp, hpe⟩

theorem releaseHead_answered (S : List Nat) (q : List (PendingCall T))
    (completed : List (ReqRes T × AsyncResponse T))
    (hq : ∀ p ∈ q, p.result.isSome = true ↔ p.handle.id ∈ S)
    (hc : ∀ d ∈ completed, d.1.id ∈ S) :
    (∀ p ∈ (releaseHead q).2, p.result.isSome = true ↔ p.handle.id ∈ S) ∧
      ∀ d ∈ completed ++ (releaseHead q).1, d.1.id ∈ S := by
  refine ⟨fun p hp => hq p (releaseHead_mem q p hp), ?_⟩
  intro d hd
  rcases List.mem_append.1 hd with hd | hd
  · exact hc d hd
  · obtain ⟨p, hp, hpe, hs⟩ := releaseHead_released q d hd
    rw [← hpe]
    exact (hq p hp).1 hs

theorem Connection.deliver_answered (S : List Nat) (id : Nat) (res : AsyncResponse T)
    (c : Connection T) (h : c.Answered S) : (c.deliver id res).Answered (S ++ [id]) :=
  releaseHead_answered (S ++ [id]) (fillSlot id res c.pending) c.completed
    (fillSlot_answered id res S c.pending h.1)
    (fun d hd => List.mem_append_left _ (h.2 d hd))

theorem Connection.ordered_pending_lt (H : List (ReqRes T)) (c : Connection T)
    (ho : c.Ordered H) : ∀ p ∈ c.pending, p.handle.id < c.issued := by
  intro p hp
  have hmem : p.handle ∈ H := by
    rw [← ho.1]
    exact List.mem_append_right _ (List.mem_map_of_mem _ hp)
  have hid : p.handle.id ∈ H.map (·.id) := List.mem_map_of_mem _ hmem
  rw [ho.2.1] at hid
  exact List.mem_range.1 hid

theorem Connection.deliver_answered_of_le (H : List (ReqRes T)) (S : List Nat) (id : Nat)
    (res : AsyncResponse T) (c : Connection T) (ho : c.Ordered H) (h : c.Answered S)
    (hid : c.issued ≤ id) : (c.deliver id res).Answered S := by
  have hq : fillSlot id res c.pending = c.pending :=
    fillSlot_eq_self id res c.pending
      (fun p hp => Nat.ne_of_lt (Nat.lt_of_lt_of_le (Connection.ordered_pending_lt H c ho p hp)
          hid))
  have hr := releaseHead_answered S c.pending c.completed h.1 h.2
  simpa only [Connection.Answered, Connection.deliver, hq] using hr

theorem Connection.submit_async_answered (S : List Nat) (req : AsyncRequest T)
    (c : Connection T) (h : c.Answered S) (hS : ∀ i ∈ S, i < c.issued) :
    (c.submit_async req).2.Answered S := by
  refine ⟨?_, h.2⟩
  intro p hp
  simp only [Connection.submit_async, List.mem_append, List.mem_singleton] at hp
  rcases hp with hp | rfl
  · exact h.1 p hp
  · constructor
    · intro hs
      simp at hs
    · intro hs
      exact absurd (hS _ hs) (Nat.lt_irrefl _)

theorem runEvents_answered {ρ : Type}
    (submit : ρ → World (κ × Connection T) μ →
      Outcome (Option (ReqRes T) × Option T.Error) × World (κ × Connection T) μ)
    (mk : ρ → AsyncRequest T) (hs : SubmitsTo submit mk) (events : List (Event ρ T)) :
    ∀ (H : List (ReqRes T)) (S : List Nat) (w : World (κ × Connection T) μ),
      w.client.2.Ordered H → w.client.2.Answered S → (∀ i ∈ S, i < w.client.2.issued) →
      (runEvents submit events w).2.client.2.Answered
        (S ++ deliveredIds events w.client.2.issued) := by
  induction events with
  | nil => intro H S w _ ha _; simpa [runEvents, deliveredIds] using ha
  | cons e rest ih =>
    intro H S w ho ha hS
    cases e with
    | submit req =>
      obtain ⟨hr, hc⟩ := hs req w
      have hnext := ih (H ++ [(Connection.submit_async (mk req) w.client.2).1]) S
        (submit req w).2
        (by rw [hc]; exact Connection.submit_async_ordered H (mk req) w.client.2 ho)
        (by rw [hc]; exact Connection.submit_async_answered S (mk req) w.client.2 ha hS)
        (by rw [hc]; exact fun i hi => Nat.lt_succ_of_lt (hS i hi))
      rw [hc] at hnext
      simp only [runEvents, hr, deliveredIds]
      exact hnext
    | deliver id res =>
      simp only [runEvents, deliveredIds]
      by_cases hid : id < w.client.2.issued
      · have hnext := ih H (S ++ [id])
          { w with client := (w.client.1, w.client.2.deliver id res) }
          (Connection.deliver_ordered H id res w.client.2 ho)
          (Connection.deliver_answered S id res w.client.2 ha)
          (by
            intro i hi
            rcases List.mem_append.1 hi with hi | hi
            · exact hS i hi
            · rw [List.mem_singleton.1 hi]; exact hid)
        simpa only [if_pos hid, List.append_assoc, List.singleton_append] using hnext
      · have hnext := ih H S
          { w with client := (w.client.1, w.client.2.deliver id res) }
          (Connection.deliver_ordered H id res w.client.2 ho)
          (Connection.deliver_answered_of_le H S id res w.client.2 ho ha (Nat.le_of_not_lt hid))
          hS
        simpa only [if_neg hid] using hnext

theorem Connection.fired_eq_takeWhile (H : List (ReqRes T)) (S : List Nat) (c : Connection T)
    (ho : c.Ordered H) (ha : c.Answered S) :
    c.completed.map Prod.fst = H.takeWhile (fun h => decide (h.id ∈ S)) := by
  obtain ⟨h1, _, h3⟩ := ho
  rw [← h1, List.takeWhile_append_of_pos]
  · cases hq : c.pending with
    | nil => simp
    | cons p rest =>
      have hn : ¬ p.handle.id ∈ S := by
        intro hmem
        have hsome := (ha.1 p (by rw [hq]; exact List.mem_cons_self _ _)).2 hmem
        rw [h3 p rest hq] at hsome
        simp at hsome
      simp [List.takeWhile_cons, hn]
  · intro h hh
    obtain ⟨d, hd, rfl⟩ := List.mem_map.1 hh
    simpa using ha.2 d hd

theorem appConnMempool.CheckTxAsync_submitsTo (metrics : Option (Metrics μ η))
    (hm : RecordsNormally metrics) (base : Client T.withPipeline κ) (ctx : T.Context) :
    SubmitsTo (appConnMempool.CheckTxAsync (NewAppConnMempool (pipelineClient base) metrics) ctx)
      (@AsyncRequest.CheckTx T) := by
  intro req w
  have h := deferAddTimeSample_returns metrics hm ["method", "check_tx", "type", "async"]
    ((pipelineClient base).CheckTxAsync ctx req) w
  exact ⟨h.1, congrArg Prod.snd h.2⟩

theorem appConnConsensus.DeliverTxAsync_submitsTo (metrics : Option (Metrics μ η))
    (hm : RecordsNormally metrics) (base : Client T.withPipeline κ) (ctx : T.Context) :
    SubmitsTo
      (appConnConsensus.DeliverTxAsync (NewAppConnConsensus (pipelineClient base) metrics) ctx)
      (@AsyncRequest.DeliverTx T) := by
  intro req w
  have h := deferAddTimeSample_returns metrics hm ["method", "deliver_tx", "type", "async"]
    ((pipelineClient base).DeliverTxAsync ctx req) w
  exact ⟨h.1, congrArg Prod.snd h.2⟩

theorem runEvents_fired_in_order {ρ : Type}
    (submit : ρ → World (κ × Connection T) μ →
      Outcome (Option (ReqRes T) × Option T.Error) × World (κ × Connection T) μ)
    (mk : ρ → AsyncRequest T) (hs : SubmitsTo submit mk) (w : World (κ × Connection T) μ)
    (hw : w.client.2 = Connection.fresh) (events : List (Event ρ T))
    (ds : List (Nat × AsyncResponse T)) :
    firedHandles (runEvents submit events w).2 <+: (runEvents submit events w).1 ∧
      (runEvents submit events w).1.Nodup ∧
      ((∀ h ∈ (runEvents submit events w).1, h.id ∈ ds.map Prod.fst) →
        firedHandles (deliverAll ds (runEvents submit events w).2) =
          (runEvents submit events w).1) ∧
      firedHandles (runEvents submit events w).2 =
        (runEvents submit events w).1.takeWhile
          (fun h => decide (h.id ∈ deliveredIds events 0)) ∧
      ((∀ h ∈ (runEvents submit events w).1, h.id ∈ deliveredIds events 0) →
        firedHandles (runEvents submit events w).2 = (runEvents submit events w).1) := by
  have ho := runEvents_ordered submit mk hs events [] w (by rw [hw]; exact Connection.fresh_ordered)
  rw [List.nil_append] at ho
  have ha := runEvents_answered submit mk hs events [] [] w
    (by rw [hw]; exact Connection.fresh_ordered)
    (by rw [hw]; exact ⟨fun _ hp => by simp [Connection.fresh] at hp,
      fun _ hd => by simp [Connection.fresh] at hd⟩)
    (fun _ hi => by simp at hi)
  rw [List.nil_append, hw] at ha
  have hfired : firedHandles (runEvents submit events w).2 =
      (runEvents submit events w).1.takeWhile
        (fun h => decide (h.id ∈ deliveredIds events 0)) :=
    Connection.fired_eq_takeWhile _ _ _ ho ha
  refine ⟨Connection.ordered_prefix _ _ ho, Connection.ordered_nodup _ _ ho, ?_, hfired, ?_⟩
  · intro hall
    have hd := deliverAll_ordered_filled (runEvents submit events w).1 ds []
      (runEvents submit events w).2.client.2 ho (fun _ _ h => by simp at h)
    exact Connection.ordered_complete _ _ _ hd.1 hd.2 (by simpa using hall)
  · intro hall
    rw [hfired]
    exact List.takeWhile_eq_self_iff.2 (fun h hh => by simpa using hall h hh)

/-- C10: on a connection whose client implements the pipeline of §4.3, with
metrics that record normally, for the asynchronous submissions made through
`CheckTxAsync` of the mempool facade (and likewise `DeliverTxAsync` of the
consensus facade), interleaved in any way with deliveries of responses by the
transport in any order. At every moment the handles whose completion callback
has fired are exactly the longest first part of the returned handles, in
submission order, every handle of which has had its response delivered: an
early response is held back until every handle submitted before it has
completed. The returned handles are pairwise distinct, so no callback fires
twice or out of order; and once the transport has delivered a response for
every returned handle, during the submissions or after them and in whatever
order, the callbacks fired are exactly the returned handles in submission
order, one per handle. -/
theorem C10_callbacks_fire_in_submission_order (metrics : Option (Metrics μ η))
    (hm : RecordsNormally metrics) (base : Client T.withPipeline κ) (ctx : T.Context)
    (w : World (κ × Connection T) μ) (hw : w.client.2 = Connection.fresh) :
    (∀ (events : List (Event T.RequestCheckTx T)) (ds : List (Nat × AsyncResponse T)),
      firedHandles (runEvents (appConnMempool.CheckTxAsync (NewAppConnMempool (pipelineClient base)
          metrics) ctx)
          events w).2 <+:
        (runEvents (appConnMempool.CheckTxAsync (NewAppConnMempool (pipelineClient base) metrics)
            ctx)
          events w).1 ∧
      (runEvents (appConnMempool.CheckTxAsync (NewAppConnMempool (pipelineClient base) metrics) ctx)
          events w).1.Nodup ∧
      ((∀ h ∈ (runEvents (appConnMempool.CheckTxAsync (NewAppConnMempool (pipelineClient base)
          metrics) ctx)
          events w).1,
          h.id ∈ ds.map Prod.fst) →
        firedHandles (deliverAll ds (runEvents (appConnMempool.CheckTxAsync (NewAppConnMempool
            (pipelineClient base) metrics) ctx)
          events w).2) =
          (runEvents (appConnMempool.CheckTxAsync (NewAppConnMempool (pipelineClient base) metrics)
              ctx)
          events w).1) ∧
      firedHandles (runEvents (appConnMempool.CheckTxAsync (NewAppConnMempool (pipelineClient base)
          metrics) ctx)
          events w).2 =
        (runEvents (appConnMempool.CheckTxAsync (NewAppConnMempool (pipelineClient base) metrics)
            ctx)
          events w).1.takeWhile
          (fun h => decide (h.id ∈ deliveredIds events 0)) ∧
      ((∀ h ∈ (runEvents (appConnMempool.CheckTxAsync (NewAppConnMempool (pipelineClient base)
          metrics) ctx)
          events w).1,
          h.id ∈ deliveredIds events 0) →
        firedHandles (runEvents (appConnMempool.CheckTxAsync (NewAppConnMempool (pipelineClient
            base) metrics) ctx)
          events w).2 =
          (runEvents (appConnMempool.CheckTxAsync (NewAppConnMempool (pipelineClient base) metrics)
              ctx)
          events w).1)) ∧
    (∀ (events : List (Event T.RequestDeliverTx T)) (ds : List (Nat × AsyncResponse T)),
      firedHandles (runEvents (appConnConsensus.DeliverTxAsync (NewAppConnConsensus (pipelineClient
          base) metrics) ctx)
          events w).2 <+:
        (runEvents (appConnConsensus.DeliverTxAsync (NewAppConnConsensus (pipelineClient base)
            metrics) ctx)
          events w).1 ∧
      (runEvents (appConnConsensus.DeliverTxAsync (NewAppConnConsensus (pipelineClient base)
          metrics) ctx)
          events w).1.Nodup ∧
      ((∀ h ∈ (runEvents (appConnConsensus.DeliverTxAsync (NewAppConnConsensus (pipelineClient base)
          metrics) ctx)
          events w).1,
          h.id ∈ ds.map Prod.fst) →
        firedHandles (deliverAll ds (runEvents (appConnConsensus.DeliverTxAsync (NewAppConnConsensus
            (pipelineClient base) metrics) ctx)
          events w).2) =
          (runEvents (appConnConsensus.DeliverTxAsync (NewAppConnConsensus (pipelineClient base)
              metrics) ctx)
          events w).1) ∧
      firedHandles (runEvents (appConnConsensus.DeliverTxAsync (NewAppConnConsensus (pipelineClient
          base) metrics) ctx)
          events w).2 =
        (runEvents (appConnConsensus.DeliverTxAsync (NewAppConnConsensus (pipelineClient base)
            metrics) ctx)
          events w).1.takeWhile
          (fun h => decide (h.id ∈ deliveredIds events 0)) ∧
      ((∀ h ∈ (runEvents (appConnConsensus.DeliverTxAsync (NewAppConnConsensus (pipelineClient base)
          metrics) ctx)
          events w).1,
          h.id ∈ deliveredIds events 0) →
        firedHandles (runEvents (appConnConsensus.DeliverTxAsync (NewAppConnConsensus
            (pipelineClient base) metrics) ctx)
          events w).2 =
          (runEvents (appConnConsensus.DeliverTxAsync (NewAppConnConsensus (pipelineClient base)
              metrics) ctx)
          events w).1)) :=
  ⟨fun events ds =>
      runEvents_fired_in_order _ _ (appConnMempool.CheckTxAsync_submitsTo metrics hm base ctx)
        w hw events ds,
    fun events ds =>
      runEvents_fired_in_order _ _ (appConnConsensus.DeliverTxAsync_submitsTo metrics hm base ctx)
        w hw events ds⟩

/-- C10 (witness): A and B are submitted through `CheckTxAsync` of the mempool
facade, the transport returns the response of B, C is submitted, the transport
returns the responses of A and C. The handles are numbered 0, 1 and 2, every
one has had its response delivered, and the callbacks fired are those of the
three handles in submission order, B with its rejection code `7`; after the
first three events, with only the response of B delivered, none has fired. -/
theorem C10_callbacks_fire_in_submission_order_witness :
    RecordsNormally (some recordingMetrics) ∧
      scenarioWorld.client.2 = Connection.fresh ∧
      (runEvents (scenarioMempool.CheckTxAsync ()) scenarioEvents scenarioWorld).1.map
          (·.id) = [0, 1, 2] ∧
      deliveredIds scenarioEvents 0 = [1, 0, 2] ∧
      firedHandles (runEvents (scenarioMempool.CheckTxAsync ()) scenarioEvents scenarioWorld).2 =
        (runEvents (scenarioMempool.CheckTxAsync ()) scenarioEvents scenarioWorld).1 ∧
      ((runEvents (scenarioMempool.CheckTxAsync ()) scenarioEvents
            scenarioWorld).2.client.2.completed.map
        fun d => (d.1.id, match d.2 with
          | .CheckTx res => res.Code
          | _ => 0)) = [(0, 0), (1, 7), (2, 0)] ∧
      firedHandles (runEvents (scenarioMempool.CheckTxAsync ()) (scenarioEvents.take 3)
        scenarioWorld).2 = [] :=
  ⟨recordingMetrics_recordsNormally, rfl, rfl, rfl,
    ((C10_callbacks_fire_in_submission_order (T := natDecls) (some recordingMetrics)
      recordingMetrics_recordsNormally (silentClient natDecls.withPipeline) () scenarioWorld
      rfl).1 scenarioEvents []).2.2.2.2 (by decide),
    rfl, rfl⟩

/-- C7 (witness): over metrics whose `With` appends the labels it is given and
whose `Observe` panics, `InitChain` of the consensus facade panics with the
panic of `Observe`, and the counting client, in state `0` before, is in state
`1`: its method was called once. -/
theorem C7_timed_call_outcome_for_any_metrics_witness :
    (appConnConsensus.InitChain (NewAppConnConsensus countingClient (some failingMetrics))
        () 3 (tickingWorld 0 [])).1 = .panicked (.raised "observe failed") ∧
      (appConnConsensus.InitChain (NewAppConnConsensus countingClient (some failingMetrics))
        () 3 (tickingWorld 0 [])).2.client = 1 :=
  ((C7_timed_call_outcome_for_any_metrics (some failingMetrics) countingClient ()).1 3
    (tickingWorld 0 [])).2.2.2.2.2.1 failingMetrics [] ["method", "init_chain", "type", "sync"]
    (.raised "observe failed") rfl rfl rfl rfl

end Theorems

end Celestia
